import Mathlib

/-!
# kubeturbo: container resize executor

A shallow embedding of `pkg/action/executor/resize_container.go`, of the helpers
of `pkg/action/util/util.go` and of `BuildMonitorWorker` of
`pkg/discovery/monitoring/monitoring_worker.go`, followed by theorems about them.

Conventions of the embedding.

* Go functions that talk to the cluster become state-passing functions over a
  `World`; every call to a collaborator appends a `Call` to `World.trace`.
* Collaborators whose code is outside the embedded files (the kubelet client,
  the Kubernetes client, the lock and scheduler helpers, quantity builders)
  are fields of `Env`: a deterministic script of what each call answers.
* A Go `error` is an `Option Error` (`none` is `nil`); a `(value, error)` pair
  whose value is unused on failure is an `Except Error value`.
* A Go run-time panic (nil pointer dereference) is the outer `none` of an
  `Option` result.
* A `float64` is a `Float64`: not-a-number, the two infinities, or a finite
  value given as a rational; comparisons follow IEEE 754.
-/

namespace Kubeturbo

/-! ## Values -/

/-- A Go `float64` up to the sign of zero: comparisons are exact on this type. -/
inductive Float64 where
  | nan
  | negInf
  | posInf
  | fin (q : ℚ)
deriving DecidableEq

/-- Go `a < b` on `float64`: false as soon as one side is not a number. -/
def Float64.lt : Float64 → Float64 → Bool
  | .fin a, .fin b => decide (a < b)
  | .negInf, .fin _ => true
  | .negInf, .posInf => true
  | .fin _, .posInf => true
  | _, _ => false

/-- Go `a > b` on `float64`. -/
def Float64.gt (a b : Float64) : Bool := Float64.lt b a

/-- Go `a <= b` on `float64`. -/
def Float64.le : Float64 → Float64 → Bool
  | .fin a, .fin b => decide (a ≤ b)
  | .negInf, .nan => false
  | .negInf, _ => true
  | .fin _, .posInf => true
  | .posInf, .posInf => true
  | _, _ => false

/-- The `float64` constant `0`. -/
def Float64.zero : Float64 := .fin 0

/-- The `float64` constant `1`. -/
def Float64.one : Float64 := .fin 1

/-- Numeric value of a `resource.Quantity`. -/
abbrev Quantity := ℚ

/-- The enum `proto.CommodityDTO_CommodityType`: the two values the resizer
dispatches on, and every other value of the enum by its number. -/
inductive CommodityType where
  | VCPU
  | VMEM
  | other (code : Nat)
deriving DecidableEq

/-- Every error value built in the embedded code, one constructor per
`fmt.Errorf` / `errors.New` site, plus the errors handed back by collaborators. -/
inductive Error where
  /-- An error returned by a collaborator outside the embedded files. -/
  | external (msg : String)
  /-- The text `ActionItem is null.` -/
  | actionItemNull
  /-- The text `Failed.` of `Execute`, steps 1 and 2. -/
  | failed
  /-- The text `Failed` of `Execute`, step 3. -/
  | failedCheck
  /-- The text `resizeReservation() is not supported yet.` -/
  | resizeReservationUnsupported
  /-- The text `new capacity should be bigger than zero (current=…)`. -/
  | capacityNotBiggerThanZero (amount : Float64)
  /-- The text `Unsupport Commodity type[…]`. -/
  | unsupportedCommodity (ctype : CommodityType)
  /-- The text `hosting pod(…) Id mismatch […  Vs. …]`. -/
  | podIdMismatch (displayName podId podId2 : String)
  /-- The text `TryLater`. -/
  | tryLater
  /-- The text `error getting all the desired pods from Kubernetes cluster: …`. -/
  | listPodsFailed (cause : Error)
  /-- The text `cannot find pod based on given uuid: …`. -/
  | podNotFound (uuid : String)
  /-- The text `failed to decode parent annoation:…`. -/
  | decodeParentAnnotation (cause : Error)
  /-- The text `Pod is being deleted.` -/
  | podBeingDeleted
  /-- The text `pod is not in running phase[…] yet.` -/
  | podNotRunning (phase : String)
  /-- A retry loop gave up: attempts (or time) exhausted. -/
  | retryExhausted
  /-- The text `Failed to get ReplicaSet[…/…]: …`. -/
  | getReplicaSetFailed (ns name : String) (cause : Error)
  /-- The text `Error when getting all the replication controllers: …`. -/
  | listRCsFailed (cause : Error)
  /-- The text `Error  getting RC list`. -/
  | gettingRCList
  /-- The text `No RC has selectors match Pod labels.` -/
  | noRCMatches
  /-- The text `Failed to find RC for Pod …/…: …`. -/
  | findRCFailed (ns name : String) (cause : Error)
  /-- The text `failed to build a Kubelet monitoring client as the provided config
  was not a KubeletMonitorConfig`. -/
  | notKubeletMonitorConfig
  /-- The text `Failed to build a cluster monitoring client as the provided config
  was not a ClusterMonitorConfig`. -/
  | notClusterMonitorConfig
  /-- The text `Failed to build a k8sconntrack monitoring client as the provided
  config was not a K8sConntrackConfig`. -/
  | notK8sConntrackConfig
  /-- The text `Unsupported monitoring source …`. -/
  | unsupportedMonitoringSource (source : String)
deriving DecidableEq

/-- The map `k8sapi.ResourceList`, from resource name to quantity, as an
association list without repeated keys. -/
abbrev ResourceList := List (String × Quantity)

/-- The key `k8sapi.ResourceCPU`. -/
def ResourceCPU : String := "cpu"

/-- The key `k8sapi.ResourceMemory`. -/
def ResourceMemory : String := "memory"

/-- Go `rlist[k] = q` on a map. -/
def ResourceList.set (rlist : ResourceList) (k : String) (q : Quantity) : ResourceList :=
  (k, q) :: rlist.filter (fun e => e.1 != k)

/-- The struct `metav1.OwnerReference`; `Controller` is a `*bool`. -/
structure OwnerReference where
  Kind : String
  Name : String
  Controller : Option Bool
deriving DecidableEq

/-- The phase `k8sapi.PodRunning`. -/
def PodRunning : String := "Running"

/-- The phase `k8sapi.PodPending`. -/
def PodPending : String := "Pending"

/-- The fields of `k8sapi.Pod` the embedded code reads. -/
structure Pod where
  UID : String
  Namespace : String
  Name : String
  /-- `Spec.NodeName`. -/
  NodeName : String
  OwnerReferences : List OwnerReference
  Annotations : List (String × String)
  /-- `nil` or a map. -/
  Labels : Option (List (String × String))
  /-- `Status.Phase`, a string type. -/
  Phase : String
  /-- A `*int64`, set once the pod is being deleted. -/
  DeletionGracePeriodSeconds : Option Int
deriving DecidableEq

/-- The message `proto.CommodityDTO`, proto2: every field optional. -/
structure CommodityDTO where
  CommodityType : Option CommodityType
  Capacity : Option Float64
  Reservation : Option Float64
deriving DecidableEq

/-- The message `proto.EntityDTO`, the fields read here. -/
structure EntityDTO where
  Id : Option String
  DisplayName : Option String
deriving DecidableEq

/-- The message `proto.ActionItemDTO`, the fields read here. -/
structure ActionItemDTO where
  TargetSE : Option EntityDTO
  HostedBySE : Option EntityDTO
  NewComm : Option CommodityDTO
deriving DecidableEq

/-- Generated getter: the zero value of the enum is number 0. -/
def CommodityDTO.GetCommodityType (comm : Option CommodityDTO) : Kubeturbo.CommodityType :=
  match comm with
  | some c => c.CommodityType.getD (.other 0)
  | none => .other 0

/-- Generated getter: `0` when the message or the field is absent. -/
def CommodityDTO.GetCapacity (comm : Option CommodityDTO) : Float64 :=
  match comm with
  | some c => c.Capacity.getD Float64.zero
  | none => Float64.zero

/-- Generated getter: `0` when the message or the field is absent. -/
def CommodityDTO.GetReservation (comm : Option CommodityDTO) : Float64 :=
  match comm with
  | some c => c.Reservation.getD Float64.zero
  | none => Float64.zero

/-- Generated getter: the empty string when the message or the field is absent. -/
def EntityDTO.GetId (e : Option EntityDTO) : String :=
  match e with
  | some x => x.Id.getD ""
  | none => ""

/-- Generated getter: the empty string when the message or the field is absent. -/
def EntityDTO.GetDisplayName (e : Option EntityDTO) : String :=
  match e with
  | some x => x.DisplayName.getD ""
  | none => ""

/-! ## Collaborators and the world -/

/-- One call to a collaborator, as recorded in the trace. -/
inductive Call where
  /-- The kubelet client is asked for the CPU frequency of a host. -/
  | getMachineCpuFrequency (host : String)
  /-- The pods of all namespaces are listed. -/
  | listPods
  /-- One pod is fetched by namespace and name. -/
  | getPod (ns name : String)
  | newSchedulerHelper (ns name parentKind parentName noexist : String) (highver : Bool)
  | setupLock
  | acquirelock
  | keepRenewLock
  | updateScheduler (schedulerName : String) (retry : Nat)
  | setScheduler (schedulerName : String)
  /-- The scheduler helper cleans up, restoring the staged scheduler name if any. -/
  | cleanUp (staged : Option String)
  | cleanPendingPod (ns noexist parentKind parentName : String) (highver : Bool)
  | newLockHelper (key : String)
  | trylock
  | releaseLock
  /-- The container at `index` of the pod `ns/name` is given new resources. -/
  | resizeContainer (ns name : String) (index : Int) (capacity : ResourceList) (retry : Nat)
deriving DecidableEq

/-- The script of the collaborators, and the fields and constants of the
`ContainerResizer` whose values are fixed elsewhere. -/
structure Env where
  /-- The function `idutil.ParseContainerId`: pod id and container index. -/
  ParseContainerId : String → Except Error (String × Int)
  /-- Answer of `kubeClient.CoreV1().Pods(all).List`. -/
  podList : Except Error (List Pod)
  /-- Answer of `kubeletClient.GetMachineCpuFrequency`, in KHz. -/
  GetMachineCpuFrequency : String → Except Error Nat
  /-- The function `genCPUQuantity`. -/
  genCPUQuantity : Float64 → Nat → Except Error Quantity
  /-- The function `genMemoryQuantity`. -/
  genMemoryQuantity : Float64 → Except Error Quantity
  /-- The call `json.Unmarshal` into an `api.SerializedReference`: kind and name
  of the reference. -/
  unmarshalReference : String → Except Error (String × String)
  /-- Field `k8sVersion`. -/
  k8sVersion : String
  /-- Constant `HigherK8sVersion`. -/
  HigherK8sVersion : String
  /-- The function `goutil.CompareVersion`. -/
  CompareVersion : String → String → Int
  /-- Field `noneSchedulerName`. -/
  noneSchedulerName : String
  /-- Constant `defaultRetryLess`. -/
  defaultRetryLess : Nat
  /-- Constant `defaultRetryMore`. -/
  defaultRetryMore : Nat
  /-- Number of attempts that fit in `defaultWaitLockTimeOut` at one attempt per
  `defaultWaitLockSleep`. -/
  waitLockAttempts : Nat
  /-- Error of `NewSchedulerHelper`, if any. -/
  newSchedulerHelperErr : Option Error
  /-- Error of `helper.SetupLock`, if any. -/
  setupLockErr : Option Error
  /-- Answer of the k-th `helper.Acquirelock` of the process, counted from 0. -/
  acquirelockAnswer : Nat → Bool
  /-- Error of the write of `helper.UpdateScheduler`, if any. -/
  updateSchedulerErr : Option Error
  /-- Whether the write with which `helper.CleanUp` restores the scheduler fails. -/
  restoreFails : Bool
  /-- Error of `resizeContainer`, if any. -/
  resizeContainerErr : Option Error
  /-- Error of `util.NewLockHelper`, if any. -/
  newLockHelperErr : Option Error
  /-- Error of `helper.Trylock`, if any. -/
  trylockErr : Option Error
  /-- Answer of the k-th `GetPod` poll of the process, counted from 0. -/
  getPodAnswer : Nat → Except Error Pod

/-- What the collaborators hold, and the calls made so far (oldest first). -/
structure World where
  trace : List Call
  /-- The scheduler name in the pod template of the parent controller. -/
  controllerScheduler : String
  /-- The scheduler name staged in the scheduler helper for restoring. -/
  stagedScheduler : Option String
  /-- Whether the lock of the current helper is held. -/
  locked : Bool
  /-- Number of `Acquirelock` attempts made. -/
  lockAttempts : Nat
  /-- Number of `GetPod` polls made. -/
  polls : Nat
deriving DecidableEq

/-- Append a call to the trace. -/
def World.log (w : World) (c : Call) : World :=
  { w with trace := w.trace ++ [c] }

/-! ## `util.go` -/

/-- Function `BuildIdentifier`: the identifier `namespace/name`. -/
def BuildIdentifier (ns name : String) : String :=
  ns ++ "/" ++ name

/-- Function `GetPod`: one poll of the pod through the Kubernetes client. -/
def GetPod (env : Env) (ns name : String) (w : World) : Except Error Pod × World :=
  (env.getPodAnswer w.polls,
    { w with trace := w.trace ++ [.getPod ns name], polls := w.polls + 1 })

/-- Function `parseOwnerReferences`. The condition dereferences `owner.Controller`
first, so an entry without the flag that the loop reaches panics. -/
def parseOwnerReferences : List OwnerReference → Option (String × String)
  | [] => some ("", "")
  | owner :: rest =>
    match owner.Controller with
    | none => none
    | some c =>
      if c && decide (owner.Kind.length > 0) && decide (owner.Name.length > 0) then
        some (owner.Kind, owner.Name)
      else
        parseOwnerReferences rest

/-- Step 2 of `GetPodParentInfo`: the parent in the `created-by` annotation. -/
def parentFromAnnotations (env : Env) (pod : Pod) : String × String × Option Error :=
  if pod.Annotations.length > 0 then
    match pod.Annotations.lookup "kubernetes.io/created-by" with
    | some value =>
      match env.unmarshalReference value with
      | .error err => ("", "", some (Error.decodeParentAnnotation err))
      | .ok (kind, name) => (kind, name, none)
    | none => ("", "", none)
  else
    ("", "", none)

/-- Function `GetPodParentInfo`: kind and name of the parent, and the error. -/
def GetPodParentInfo (env : Env) (pod : Pod) : Option (String × String × Option Error) :=
  if pod.OwnerReferences.length > 0 then
    match parseOwnerReferences pod.OwnerReferences with
    | none => none
    | some (kind, name) =>
      if kind.length > 0 ∧ name.length > 0 then
        some (kind, name, none)
      else
        some (parentFromAnnotations env pod)
  else
    some (parentFromAnnotations env pod)

/-- Function `GetPodFromUUID`: list every pod, return the first with the uid. -/
def GetPodFromUUID (env : Env) (podUUID : String) (w : World) : Except Error Pod × World :=
  let w1 := w.log .listPods
  match env.podList with
  | .error err => (.error (Error.listPodsFailed err), w1)
  | .ok items =>
    match items.find? (fun pod => pod.UID == podUUID) with
    | some pod => (.ok pod, w1)
    | none => (.error (Error.podNotFound podUUID), w1)

/-- What `GetPodGrandInfo` uses beyond `Env`: the library function
`strings.EqualFold`, and the answer of the `ReplicaSets(ns).Get(name)` call of the
Kubernetes client, of which the owner references are read. -/
structure ReplicaSetEnv where
  EqualFold : String → String → Bool
  getReplicaSet : String → String → Except Error (List OwnerReference)

/-- Function `GetPodGrandInfo`: kind and name of the parent of the parent when
the parent is a replica set that has one, of the parent otherwise. -/
def GetPodGrandInfo (env : Env) (renv : ReplicaSetEnv) (pod : Pod) :
    Option (String × String × Option Error) :=
  match GetPodParentInfo env pod with
  | none => none
  | some (_, _, some err) => some ("", "", some err)
  | some (kind, name, none) =>
    if renv.EqualFold kind "ReplicaSet" then
      match renv.getReplicaSet pod.Namespace name with
      | .error err => some ("", "", some (Error.getReplicaSetFailed pod.Namespace name err))
      | .ok owners =>
        if owners.length > 0 then
          match parseOwnerReferences owners with
          | none => none
          | some (gkind, gname) =>
            if gkind.length > 0 ∧ gname.length > 0 then
              some (gkind, gname, none)
            else
              some (kind, name, none)
        else
          some (kind, name, none)
    else
      some (kind, name, none)

/-- The fields of `api.ReplicationController` read here; `Selector` is the map
`Spec.Selector`. -/
structure ReplicationController where
  Namespace : String
  Name : String
  Selector : List (String × String)
deriving DecidableEq

/-- Go `m[key]` on a map from string to string: the empty string when the key is
absent. -/
def mapIndex (m : List (String × String)) (key : String) : String :=
  (m.lookup key).getD ""

/-- The inner loop of `findRCBasedOnPodLabel`: the flag `findRC` after the loop
over the selector, which stops at the first entry that the labels do not carry. -/
def selectorMatches (labels : List (String × String)) : List (String × String) → Bool
  | [] => true
  | (key, val) :: rest =>
    if mapIndex labels key = "" ∨ mapIndex labels key ≠ val then
      false
    else
      selectorMatches labels rest

/-- Function `findRCBasedOnPodLabel`. -/
def findRCBasedOnPodLabel :
    List ReplicationController → List (String × String) → Except Error ReplicationController
  | [], _ => .error Error.noRCMatches
  | rc :: rest, labels =>
    if selectorMatches labels rc.Selector then
      .ok rc
    else
      findRCBasedOnPodLabel rest labels

/-- Function `GetAllReplicationControllers`; `listRCs` is the answer of the
`ReplicationControllers(namespace).List` call of the Kubernetes client. -/
def GetAllReplicationControllers (listRCs : String → Except Error (List ReplicationController))
    (ns : String) : Except Error (List ReplicationController) :=
  match listRCs ns with
  | .error err => .error (Error.listRCsFailed err)
  | .ok items => .ok items

/-- Function `FindReplicationControllerForPod`: `(nil, nil)` is `.ok none`. -/
def FindReplicationControllerForPod
    (listRCs : String → Except Error (List ReplicationController)) (currentPod : Pod) :
    Except Error (Option ReplicationController) :=
  let podNamespace := currentPod.Namespace
  let podName := currentPod.Name
  match currentPod.Labels with
  | some podLabels =>
    match GetAllReplicationControllers listRCs podNamespace with
    | .error _ => .error Error.gettingRCList
    | .ok allRCs =>
      match findRCBasedOnPodLabel allRCs podLabels with
      | .error err => .error (Error.findRCFailed podNamespace podName err)
      | .ok rc => .ok (some rc)
  | none => .ok none

/-! ## `monitoring_worker.go` -/

/-- The type `types.MonitoringSource`: the three constants of the switch, and
every other value by its text. -/
inductive MonitoringSource where
  | KubeletSource
  | ClusterSource
  | K8sConntrackSource
  | other (name : String)
deriving DecidableEq

/-- A `*kubelet.KubeletMonitorConfig`, by address. -/
structure KubeletMonitorConfig where
  addr : Nat
deriving DecidableEq

/-- A `*master.ClusterMonitorConfig`, by address. -/
structure ClusterMonitorConfig where
  addr : Nat
deriving DecidableEq

/-- A `*k8sconntrack.K8sConntrackMonitorConfig`, by address. -/
structure K8sConntrackMonitorConfig where
  addr : Nat
deriving DecidableEq

/-- The dynamic type and value of a `MonitorWorkerConfig` interface value. -/
inductive MonitorWorkerConfig where
  | kubelet (config : KubeletMonitorConfig)
  | cluster (config : ClusterMonitorConfig)
  | k8sconntrack (config : K8sConntrackMonitorConfig)
  /-- A value of any other type that implements the interface. -/
  | otherType (typeName : String)
deriving DecidableEq

/-- The three constructors of monitors, whose code is in other packages; `Worker`
is the type of the `MonitoringWorker` values they return. -/
structure MonitorPackages (Worker : Type) where
  NewKubeletMonitor : KubeletMonitorConfig → Except Error Worker
  NewClusterMonitor : ClusterMonitorConfig → Except Error Worker
  NewK8sConntrackMonitor : K8sConntrackMonitorConfig → Except Error Worker

/-- Function `BuildMonitorWorker`; a nil interface value is `none`, on which every
type assertion fails. -/
def BuildMonitorWorker {Worker : Type} (pkgs : MonitorPackages Worker)
    (source : MonitoringSource) (config : Option MonitorWorkerConfig) : Except Error Worker :=
  match source with
  | .KubeletSource =>
    match config with
    | some (.kubelet kubeletConfig) => pkgs.NewKubeletMonitor kubeletConfig
    | _ => .error Error.notKubeletMonitorConfig
  | .ClusterSource =>
    match config with
    | some (.cluster clusterMonitorConfig) => pkgs.NewClusterMonitor clusterMonitorConfig
    | _ => .error Error.notClusterMonitorConfig
  | .K8sConntrackSource =>
    match config with
    | some (.k8sconntrack k8sconntrackMonitoring) =>
      pkgs.NewK8sConntrackMonitor k8sconntrackMonitoring
    | _ => .error Error.notK8sConntrackConfig
  | .other name => .error (Error.unsupportedMonitoringSource name)

/-! ## `resize_container.go`: building the resize specification -/

/-- The struct `containerResizeSpec`. -/
structure containerResizeSpec where
  NewCapacity : ResourceList
  Index : Int
deriving DecidableEq

/-- Method `getNodeCPUFrequency`. -/
def getNodeCPUFrequency (env : Env) (host : String) (w : World) : Except Error Nat × World :=
  (env.GetMachineCpuFrequency host, w.log (.getMachineCpuFrequency host))

/-- Method `setCPUCapacity`: returns the updated map and the error. -/
def setCPUCapacity (env : Env) (cpuMhz : Float64) (host : String) (rlist : ResourceList)
    (w : World) : (ResourceList × Option Error) × World :=
  match getNodeCPUFrequency env host w with
  | (.error err, w1) => ((rlist, some err), w1)
  | (.ok cpuFrequency, w1) =>
    match env.genCPUQuantity cpuMhz cpuFrequency with
    | .error err => ((rlist, some err), w1)
    | .ok cpuQuantity => ((rlist.set ResourceCPU cpuQuantity, none), w1)

/-- Method `buildNewCapacity`: the pair `(result, err)` it returns. -/
def buildNewCapacity (env : Env) (pod : Pod) (actionItem : ActionItemDTO) (w : World) :
    (ResourceList × Option Error) × World :=
  let result : ResourceList := []
  let comm := actionItem.NewComm
  let ctype := CommodityDTO.GetCommodityType comm
  let amount := CommodityDTO.GetCapacity comm
  if Float64.lt amount Float64.one then
    let msg :=
      if Float64.gt (CommodityDTO.GetReservation comm) Float64.zero then
        Error.resizeReservationUnsupported
      else
        Error.capacityNotBiggerThanZero amount
    ((result, some msg), w)
  else
    match ctype with
    | .VCPU =>
      let host := pod.NodeName
      setCPUCapacity env amount host result w
    | .VMEM =>
      match env.genMemoryQuantity amount with
      | .error err => ((result, some err), w)
      | .ok memory => ((result.set ResourceMemory memory, none), w)
    | .other _ => ((result, some (Error.unsupportedCommodity ctype)), w)

/-- Method `buildResizeAction`: the specification and the hosting pod, or the error. -/
def buildResizeAction (env : Env) (actionItem : ActionItemDTO) (w : World) :
    Except Error (containerResizeSpec × Pod) × World :=
  let entity := actionItem.TargetSE
  let containerId := EntityDTO.GetId entity
  match env.ParseContainerId containerId with
  | .error err => (.error err, w)
  | .ok (podId, containerIndex) =>
    let podEntity := actionItem.HostedBySE
    let podId2 := EntityDTO.GetId podEntity
    if podId2 ≠ podId then
      (.error (Error.podIdMismatch (EntityDTO.GetDisplayName podEntity) podId podId2), w)
    else
      match GetPodFromUUID env podId w with
      | (.error err, w1) => (.error err, w1)
      | (.ok pod, w1) =>
        match buildNewCapacity env pod actionItem w1 with
        | ((_, some err), w2) => (.error err, w2)
        | ((newCapacity, none), w2) =>
          (.ok ({ Index := containerIndex, NewCapacity := newCapacity }, pod), w2)

/-! ## Lock and scheduler helpers -/

/-- Modelled from the spec: `goutil.RetryDuring` is not under src/. A bounded
retry loop around one attempt: the attempt is repeated until it succeeds, at most
`attempts` times; when the attempts are used up the loop fails. -/
def RetryDuring : Nat → (World → Option Error × World) → World → Option Error × World
  | 0, _, w => (some Error.retryExhausted, w)
  | n + 1, f, w =>
    match f w with
    | (none, w1) => (none, w1)
    | (some _, w1) => RetryDuring n f w1

/-- Modelled from the spec: `goutil.RetrySimple` is not under src/. The function
is polled a bounded number of attempts; an answer without the retry flag ends the
polling with the error of that answer (success when it is nil); when the attempts are
used up the loop fails. -/
def RetrySimple : Nat → (World → (Bool × Option Error) × World) → World → Option Error × World
  | 0, _, w => (some Error.retryExhausted, w)
  | n + 1, f, w =>
    match f w with
    | ((false, err), w1) => (err, w1)
    | ((true, _), w1) => RetrySimple n f w1

/-- Modelled from the spec: `NewSchedulerHelper` is not under src/. It builds the
helper of one parent controller; nothing is staged for restoring yet. -/
def NewSchedulerHelper (env : Env) (ns name parentKind parentName noexist : String)
    (highver : Bool) (w : World) : Option Error × World :=
  let w1 := w.log (.newSchedulerHelper ns name parentKind parentName noexist highver)
  match env.newSchedulerHelperErr with
  | some err => (some err, w1)
  | none => (none, { w1 with stagedScheduler := none })

/-- Modelled from the spec: `SetupLock` is not under src/. It derives the lock key
from the identity of the parent. -/
def SetupLock (env : Env) (w : World) : Option Error × World :=
  (env.setupLockErr, w.log .setupLock)

/-- Modelled from the spec: `Acquirelock` is not under src/. A single attempt to
register the lock. -/
def Acquirelock (env : Env) (w : World) : Bool × World :=
  let got := env.acquirelockAnswer w.lockAttempts
  (got, { w with trace := w.trace ++ [.acquirelock],
                 lockAttempts := w.lockAttempts + 1,
                 locked := w.locked || got })

/-- Modelled from the spec: `KeepRenewLock` is not under src/. It starts the
heartbeat that renews the lease. -/
def KeepRenewLock (w : World) : World :=
  w.log .keepRenewLock

/-- Modelled from the spec: `UpdateScheduler` is not under src/. It reads the
scheduler name of the pod template of the controller, writes the placeholder in
its place and returns the previous name; it fails when the retries on write
conflicts are used up. -/
def UpdateScheduler (env : Env) (schedulerName : String) (retry : Nat) (w : World) :
    Except Error String × World :=
  let w1 := w.log (.updateScheduler schedulerName retry)
  match env.updateSchedulerErr with
  | some err => (.error err, w1)
  | none => (.ok w1.controllerScheduler, { w1 with controllerScheduler := schedulerName })

/-- Modelled from the spec: `SetScheduler` is not under src/. It stages the
captured original scheduler name in the helper. -/
def SetScheduler (schedulerName : String) (w : World) : World :=
  { w with trace := w.trace ++ [.setScheduler schedulerName],
           stagedScheduler := some schedulerName }

/-- Modelled from the spec: `CleanUp` is not under src/. It restores the
previously captured scheduler name on the controller and releases the lock; a
failed restore does not prevent the release. -/
def CleanUp (env : Env) (w : World) : World :=
  let w1 := w.log (.cleanUp w.stagedScheduler)
  match w.stagedScheduler with
  | some original =>
    if env.restoreFails then
      { w1 with locked := false }
    else
      { w1 with controllerScheduler := original, locked := false }
  | none => { w1 with locked := false }

/-- Modelled from the spec: `util.CleanPendingPod` is not under src/. It deletes
the pods the controller created with the placeholder scheduler name. -/
def CleanPendingPod (ns noexist parentKind parentName : String) (highver : Bool)
    (w : World) : World :=
  w.log (.cleanPendingPod ns noexist parentKind parentName highver)

/-- Modelled from the spec: `util.NewLockHelper` is not under src/. It wraps one
key over the lease registry. -/
def NewLockHelper (env : Env) (key : String) (w : World) : Option Error × World :=
  (env.newLockHelperErr, w.log (.newLockHelper key))

/-- Modelled from the spec: `Trylock` is not under src/. It polls the registry
until the lock is registered or the timeout elapses. -/
def Trylock (env : Env) (w : World) : Option Error × World :=
  let w1 := w.log .trylock
  match env.trylockErr with
  | some err => (some err, w1)
  | none => (none, { w1 with locked := true })

/-- Modelled from the spec: `ReleaseLock` is not under src/. It stops the
heartbeat and releases the lease. -/
def ReleaseLock (w : World) : World :=
  { w with trace := w.trace ++ [.releaseLock], locked := false }

/-- Modelled from the spec: `resizeContainer` is not under src/. It writes the
new resource quantities of the container at the index, retried a bounded number
of times on write conflicts. -/
def resizeContainer (env : Env) (pod : Pod) (index : Int) (capacity : ResourceList)
    (retry : Nat) (w : World) : Option Error × World :=
  (env.resizeContainerErr, w.log (.resizeContainer pod.Namespace pod.Name index capacity retry))

/-! ## `resize_container.go`: executing and checking -/

/-- The closure handed to `goutil.RetryDuring` in `resizeControllerContainer`. -/
def acquirelockAttempt (env : Env) (w : World) : Option Error × World :=
  match Acquirelock env w with
  | (false, w1) => (some Error.tryLater, w1)
  | (true, w1) => (none, w1)

/-- Steps 4 and 5 of `resizeControllerContainer`, the statements after `defer`. -/
def resizeControllerContainerSteps (env : Env) (pod : Pod) (index : Int)
    (capacity : ResourceList) (noexist : String) (w : World) : Option Error × World :=
  match UpdateScheduler env noexist env.defaultRetryLess w with
  | (.error _, w1) => (some Error.tryLater, w1)
  | (.ok preScheduler, w1) =>
    let w2 := SetScheduler preScheduler w1
    match resizeContainer env pod index capacity env.defaultRetryLess w2 with
    | (some _, w3) => (some Error.tryLater, w3)
    | (none, w3) => (none, w3)

/-- The deferred function of `resizeControllerContainer` (step 3). -/
def resizeControllerContainerDeferred (env : Env) (pod : Pod) (parentKind parentName : String)
    (noexist : String) (highver : Bool) (w : World) : World :=
  CleanPendingPod pod.Namespace noexist parentKind parentName highver (CleanUp env w)

/-- The flag `highver` of `resizeControllerContainer`. -/
def highver (env : Env) : Bool :=
  if env.CompareVersion env.k8sVersion env.HigherK8sVersion < 0 then false else true

/-- Steps 1 and 2 of `resizeControllerContainer`: build the helper, set up the
lock and wait for it. -/
def acquireParentLock (env : Env) (pod : Pod) (parentKind parentName : String) (w : World) :
    Option Error × World :=
  match NewSchedulerHelper env pod.Namespace pod.Name parentKind parentName
      env.noneSchedulerName (highver env) w with
  | (some err, w1) => (some err, w1)
  | (none, w1) =>
    match SetupLock env w1 with
    | (some err, w2) => (some err, w2)
    | (none, w2) => RetryDuring (min 1000 env.waitLockAttempts) (acquirelockAttempt env) w2

/-- Method `resizeControllerContainer`. The deferred function runs when the
function returns, after the statements that follow the `defer`. -/
def resizeControllerContainer (env : Env) (pod : Pod) (parentKind parentName : String)
    (index : Int) (capacity : ResourceList) (w : World) : Option Error × World :=
  let noexist := env.noneSchedulerName
  match acquireParentLock env pod parentKind parentName w with
  | (some err, w3) => (some err, w3)
  | (none, w3) =>
    let w4 := KeepRenewLock w3
    match resizeControllerContainerSteps env pod index capacity noexist w4 with
    | (err, w5) =>
      (err, resizeControllerContainerDeferred env pod parentKind parentName noexist (highver env) w5)

/-- Method `resizeBarePodContainer`. The deferred `ReleaseLock` runs when the
function returns. -/
def resizeBarePodContainer (env : Env) (pod : Pod) (index : Int) (capacity : ResourceList)
    (w : World) : Option Error × World :=
  let podkey := BuildIdentifier pod.Namespace pod.Name
  match NewLockHelper env podkey w with
  | (some err, w1) => (some err, w1)
  | (none, w1) =>
    match Trylock env w1 with
    | (some err, w2) => (some err, w2)
    | (none, w2) =>
      let w3 := KeepRenewLock w2
      match resizeContainer env pod index capacity env.defaultRetryMore w3 with
      | (err, w4) => (err, ReleaseLock w4)

/-- Step 2 of `executeAction`, second half: the resize on the path chosen by the
parent kind. -/
def resizeOnPath (env : Env) (resizeSpec : containerResizeSpec) (pod : Pod)
    (parentKind parentName : String) (w : World) : Option Error × World :=
  if parentKind = "" then
    resizeBarePodContainer env pod resizeSpec.Index resizeSpec.NewCapacity w
  else
    resizeControllerContainer env pod parentKind parentName resizeSpec.Index
      resizeSpec.NewCapacity w

/-- Method `executeAction`. The error of the resize is logged; the statement that
ends the function is `return nil`. -/
def executeAction (env : Env) (resizeSpec : containerResizeSpec) (pod : Pod) (w : World) :
    Option (Option Error × World) :=
  if resizeSpec.NewCapacity.length < 1 then
    some (none, w)
  else
    match GetPodParentInfo env pod with
    | none => none
    | some (_, _, some err) => some (some err, w)
    | some (parentKind, parentName, none) =>
      match resizeOnPath env resizeSpec pod parentKind parentName w with
      | (_, w1) => some (none, w1)

/-- Function `doCheckPod`: the pair `(retry, error)`. -/
def doCheckPod (env : Env) (ns name : String) (w : World) : (Bool × Option Error) × World :=
  match GetPod env ns name w with
  | (.error err, w1) => ((true, some err), w1)
  | (.ok pod, w1) =>
    let phase := pod.Phase
    if phase = PodRunning then
      ((false, none), w1)
    else if pod.DeletionGracePeriodSeconds ≠ none then
      ((false, some Error.podBeingDeleted), w1)
    else
      ((true, some (Error.podNotRunning phase)), w1)

/-- Method `checkPod`. -/
def checkPod (env : Env) (pod : Pod) (w : World) : Option Error × World :=
  let retryNum := env.defaultRetryMore
  RetrySimple retryNum (doCheckPod env pod.Namespace pod.Name) w

/-- Method `Execute`; the argument is a pointer, `none` is `nil`. -/
def Execute (env : Env) (actionItem : Option ActionItemDTO) (w : World) :
    Option (Option Error × World) :=
  match actionItem with
  | none => some (some Error.actionItemNull, w)
  | some item =>
    match buildResizeAction env item w with
    | (.error _, w1) => some (some Error.failed, w1)
    | (.ok (spec, pod), w1) =>
      match executeAction env spec pod w1 with
      | none => none
      | some (some _, w2) => some (some Error.failed, w2)
      | some (none, w2) =>
        match checkPod env pod w2 with
        | (some _, w3) => some (some Error.failedCheck, w3)
        | (none, w3) => some (none, w3)

/-! ## Classes of calls -/

/-- Calls that read or write the scheduler of a controller, or build or clean up
the helper that does. -/
def Call.isSchedulerCall : Call → Bool
  | .newSchedulerHelper _ _ _ _ _ _ => true
  | .updateScheduler _ _ => true
  | .setScheduler _ => true
  | .cleanUp _ => true
  | .cleanPendingPod _ _ _ _ _ => true
  | _ => false

/-- The two calls of the deferred cleanup of `resizeControllerContainer`. -/
def Call.isCleanupCall : Call → Bool
  | .cleanUp _ => true
  | .cleanPendingPod _ _ _ _ _ => true
  | _ => false

/-- The two calls that must run under the lock: the scheduler swap and the
container mutation. -/
def Call.isGuardedCall : Call → Bool
  | .updateScheduler _ _ => true
  | .resizeContainer _ _ _ _ _ => true
  | _ => false

/-! ## Quantity builders -/

/-- Modelled from the spec: `genCPUQuantity` is not under src/. The requested CPU
amount is a rate; it is multiplied by the measured CPU capacity of the hosting
node to give an absolute quantity. -/
def genCPUQuantity (cpuMhz : Float64) (cpuFrequency : Nat) : Except Error Quantity :=
  match cpuMhz with
  | .fin a => .ok (a * (cpuFrequency : ℚ))
  | _ => .error (Error.external "amount is not finite")

/-- Modelled from the spec: `genMemoryQuantity` is not under src/. The requested
memory amount converts directly to an absolute byte quantity. -/
def genMemoryQuantity (amount : Float64) : Except Error Quantity :=
  match amount with
  | .fin a => .ok a
  | _ => .error (Error.external "amount is not finite")

/-! ## Fixtures -/

/-- A world in which nothing was called yet; the controller runs the default
scheduler. -/
def World.initial : World :=
  { trace := [], controllerScheduler := "default-scheduler", stagedScheduler := none,
    locked := false, lockAttempts := 0, polls := 0 }

/-- A running pod without owner, on node `node-1`. -/
def barePod : Pod :=
  { UID := "uid-1", Namespace := "default", Name := "web", NodeName := "node-1",
    OwnerReferences := [], Annotations := [], Labels := none,
    Phase := PodRunning, DeletionGracePeriodSeconds := none }

/-- A running pod owned by the replica set `web-rs`. -/
def ownedPod : Pod :=
  { barePod with
    OwnerReferences := [{ Kind := "ReplicaSet", Name := "web-rs", Controller := some true }] }

/-- A script in which every collaborator succeeds at once: the cluster holds
`pod`, whose node runs at 2,000,000 KHz, container ids are `uid-1-0`. -/
def Env.allGood (pod : Pod) : Env :=
  { ParseContainerId := fun _ => .ok ("uid-1", 0),
    podList := .ok [pod],
    GetMachineCpuFrequency := fun _ => .ok 2000000,
    genCPUQuantity := Kubeturbo.genCPUQuantity,
    genMemoryQuantity := Kubeturbo.genMemoryQuantity,
    unmarshalReference := fun _ => .error (Error.external "invalid character"),
    k8sVersion := "1.6",
    HigherK8sVersion := "1.6",
    CompareVersion := fun _ _ => 0,
    noneSchedulerName := "turbo-no-scheduler",
    defaultRetryLess := 2,
    defaultRetryMore := 6,
    waitLockAttempts := 10,
    newSchedulerHelperErr := none,
    setupLockErr := none,
    acquirelockAnswer := fun _ => true,
    updateSchedulerErr := none,
    restoreFails := false,
    resizeContainerErr := none,
    newLockHelperErr := none,
    trylockErr := none,
    getPodAnswer := fun _ => .ok pod }

/-- The script `Env.allGood`, except that the container mutation fails. -/
def Env.mutationFails (pod : Pod) : Env :=
  { Env.allGood pod with resizeContainerErr := some (Error.external "conflict") }

/-- The script `Env.allGood`, except that no lock is ever granted. -/
def Env.lockFails (pod : Pod) : Env :=
  { Env.allGood pod with
    acquirelockAnswer := fun _ => false,
    trylockErr := some (Error.external "lock timeout") }

/-- The world in which the lock of the replica set `web-rs` was just acquired
for the owned pod, under the script `Env.mutationFails`. -/
def World.parentLocked : World :=
  (acquireParentLock (Env.mutationFails ownedPod) ownedPod "ReplicaSet" "web-rs"
    World.initial).2

/-- A running pod without owner that carries a deletion marker. -/
def deletedRunningPod : Pod :=
  { barePod with DeletionGracePeriodSeconds := some 30 }

/-- A pending pod without owner that carries a deletion marker. -/
def deletedPendingPod : Pod :=
  { barePod with Phase := PodPending, DeletionGracePeriodSeconds := some 30 }

/-- A pending pod without owner. -/
def pendingPod : Pod :=
  { barePod with Phase := PodPending }

/-- The script `Env.allGood`, except that the pod is polled as Pending, Pending,
and Running from then on. -/
def Env.pendingTwice : Env :=
  { Env.allGood barePod with
    getPodAnswer := fun k => if k < 2 then Except.ok pendingPod else Except.ok barePod }

/-- An owner reference whose `Controller` pointer is nil. -/
def unflaggedOwner : OwnerReference :=
  { Kind := "Deployment", Name := "web", Controller := none }

/-- A running pod whose only owner reference has no `Controller` flag. -/
def unflaggedPod : Pod :=
  { barePod with OwnerReferences := [unflaggedOwner] }

/-- Case-insensitive comparison on ASCII letters, enough for the fixtures. -/
def asciiEqualFold (a b : String) : Bool :=
  a.toList.map Char.toLower == b.toList.map Char.toLower

/-- The replica set `web-rs` is found and its only owner reference has no
`Controller` flag. -/
def ReplicaSetEnv.unflagged : ReplicaSetEnv :=
  { EqualFold := asciiEqualFold,
    getReplicaSet := fun _ _ => .ok [unflaggedOwner] }

/-- The replica set `web-rs` is found and is controlled by the deployment `web`. -/
def ReplicaSetEnv.deployed : ReplicaSetEnv :=
  { EqualFold := asciiEqualFold,
    getReplicaSet := fun _ _ =>
      .ok [{ Kind := "Deployment", Name := "web", Controller := some true }] }

/-- A running pod without owner that carries the label `app=web`. -/
def labelledPod : Pod :=
  { barePod with Labels := some [("app", "web")] }

/-- A replication controller whose selector is empty. -/
def rcNoSelector : ReplicationController :=
  { Namespace := "default", Name := "any", Selector := [] }

/-- A replication controller that selects `app=web`. -/
def rcWeb : ReplicationController :=
  { Namespace := "default", Name := "web-rc", Selector := [("app", "web")] }

/-- A replication controller that selects `app=db`. -/
def rcDb : ReplicationController :=
  { Namespace := "default", Name := "db-rc", Selector := [("app", "db")] }

/-- Monitors that are the name of the package that built them and the address of
their config; every constructor succeeds. -/
def MonitorPackages.named : MonitorPackages (String × Nat) :=
  { NewKubeletMonitor := fun c => .ok ("kubelet", c.addr),
    NewClusterMonitor := fun c => .ok ("master", c.addr),
    NewK8sConntrackMonitor := fun c => .ok ("k8sconntrack", c.addr) }

/-- An action item for the first container of pod `uid-1`. -/
def resizeItem (ctype : CommodityType) (capacity : Float64) : ActionItemDTO :=
  { TargetSE := some { Id := some "uid-1-0", DisplayName := some "web/app" },
    HostedBySE := some { Id := some "uid-1", DisplayName := some "default/web" },
    NewComm := some { CommodityType := some ctype, Capacity := some capacity,
                      Reservation := none } }

/-! ## Lemmas on values -/

theorem Float64.lt_one_of_le_zero (a : Float64) (h : Float64.le a Float64.zero = true) :
    Float64.lt a Float64.one = true := by
  cases a with
  | nan => simp [Float64.le, Float64.zero] at h
  | negInf => simp [Float64.lt, Float64.one]
  | posInf => simp [Float64.le, Float64.zero] at h
  | fin q =>
    simp only [Float64.le, Float64.zero, decide_eq_true_eq] at h
    simp only [Float64.lt, Float64.one, decide_eq_true_eq]
    linarith

theorem GetCapacity_of_absent (comm : Option CommodityDTO)
    (h : ∀ c, comm = some c → c.Capacity = none) :
    CommodityDTO.GetCapacity comm = Float64.zero := by
  cases comm with
  | none => rfl
  | some c => simp [CommodityDTO.GetCapacity, h c rfl]

theorem buildNewCapacity_of_lt_one (env : Env) (pod : Pod) (actionItem : ActionItemDTO)
    (w : World)
    (h : Float64.lt (CommodityDTO.GetCapacity actionItem.NewComm) Float64.one = true) :
    buildNewCapacity env pod actionItem w =
      (([], some (if Float64.gt (CommodityDTO.GetReservation actionItem.NewComm) Float64.zero
          then Error.resizeReservationUnsupported
          else Error.capacityNotBiggerThanZero (CommodityDTO.GetCapacity actionItem.NewComm))),
        w) := by
  simp [buildNewCapacity, h]

theorem buildNewCapacity_of_other (env : Env) (pod : Pod) (actionItem : ActionItemDTO)
    (w : World)
    (hcpu : CommodityDTO.GetCommodityType actionItem.NewComm ≠ CommodityType.VCPU)
    (hmem : CommodityDTO.GetCommodityType actionItem.NewComm ≠ CommodityType.VMEM) :
    ∃ err, buildNewCapacity env pod actionItem w = (([], some err), w) := by
  by_cases h : Float64.lt (CommodityDTO.GetCapacity actionItem.NewComm) Float64.one = true
  · exact ⟨_, buildNewCapacity_of_lt_one env pod actionItem w h⟩
  · cases hc : CommodityDTO.GetCommodityType actionItem.NewComm with
    | VCPU => exact absurd hc hcpu
    | VMEM => exact absurd hc hmem
    | other code =>
      refine ⟨Error.unsupportedCommodity (CommodityType.other code), ?_⟩
      simp [buildNewCapacity, h, hc]

/-- When `buildNewCapacity` fails on every world, `buildResizeAction` fails. -/
theorem buildResizeAction_error_of_capacity_error (env : Env) (actionItem : ActionItemDTO)
    (h : ∀ pod w, ∃ err, buildNewCapacity env pod actionItem w = (([], some err), w))
    (w : World) :
    ∃ err w1, buildResizeAction env actionItem w = (Except.error err, w1) := by
  cases hp : env.ParseContainerId (EntityDTO.GetId actionItem.TargetSE) with
  | error err => exact ⟨err, w, by simp [buildResizeAction, hp]⟩
  | ok r =>
    obtain ⟨podId, containerIndex⟩ := r
    by_cases hid : EntityDTO.GetId actionItem.HostedBySE = podId
    · cases hg : GetPodFromUUID env podId w with
      | mk res w1 =>
        cases res with
        | error err => exact ⟨err, w1, by simp [buildResizeAction, hp, hid, hg]⟩
        | ok pod =>
          obtain ⟨err, hb⟩ := h pod w1
          exact ⟨err, w1, by simp [buildResizeAction, hp, hid, hg, hb]⟩
    · exact ⟨Error.podIdMismatch (EntityDTO.GetDisplayName actionItem.HostedBySE) podId
        (EntityDTO.GetId actionItem.HostedBySE), w, by simp [buildResizeAction, hp, hid]⟩

/-! ## C1: a failed resize is not reported -/

/-- Whatever the resize step answers, `executeAction` returns nil once the parent
of the pod was found. -/
theorem executeAction_returns_nil (env : Env) (resizeSpec : containerResizeSpec) (pod : Pod)
    (w : World) (parentKind parentName : String)
    (hparent : GetPodParentInfo env pod = some (parentKind, parentName, none)) :
    ∃ w1, executeAction env resizeSpec pod w = some (none, w1) := by
  by_cases hlen : resizeSpec.NewCapacity.length < 1
  · exact ⟨w, by simp [executeAction, hlen]⟩
  · exact ⟨(resizeOnPath env resizeSpec pod parentKind parentName w).2,
      by simp [executeAction, hlen, hparent]⟩

/-- C1 fails on the code. Bare-pod path: the lock of pod `default/web` cannot be
acquired, `resizeBarePodContainer` returns that error, yet `executeAction` returns
nil and `Execute` returns nil (success) after one poll of the running pod, no
mutation call having been made. Controller path: the mutation of the owned pod
fails, `resizeControllerContainer` returns TryLater, yet `executeAction` and
`Execute` return nil. -/
theorem Execute_reports_success_after_failed_resize :
    (resizeBarePodContainer (Env.lockFails barePod) barePod 0 [(ResourceMemory, 2048)]
        (World.initial.log Call.listPods)).1 = some (Error.external "lock timeout") ∧
      (executeAction (Env.lockFails barePod) { NewCapacity := [(ResourceMemory, 2048)], Index := 0 }
        barePod (World.initial.log Call.listPods)).map Prod.fst = some none ∧
      (Execute (Env.lockFails barePod) (some (resizeItem CommodityType.VMEM (Float64.fin 2048)))
        World.initial).map Prod.fst = some none ∧
      (Execute (Env.lockFails barePod) (some (resizeItem CommodityType.VMEM (Float64.fin 2048)))
        World.initial).map (fun r => r.2.trace)
        = some [Call.listPods, Call.newLockHelper "default/web", Call.trylock,
            Call.getPod "default" "web"] ∧
      (resizeControllerContainer (Env.mutationFails ownedPod) ownedPod "ReplicaSet" "web-rs" 0
        [(ResourceMemory, 2048)] (World.initial.log Call.listPods)).1 = some Error.tryLater ∧
      (executeAction (Env.mutationFails ownedPod)
        { NewCapacity := [(ResourceMemory, 2048)], Index := 0 }
        ownedPod (World.initial.log Call.listPods)).map Prod.fst = some none ∧
      (Execute (Env.mutationFails ownedPod)
        (some (resizeItem CommodityType.VMEM (Float64.fin 2048)))
        World.initial).map Prod.fst = some none := by
  decide

/-! ## C2: a non-positive capacity is rejected -/

/-- C2. For every action item whose requested capacity amount is at most zero,
`buildNewCapacity` returns an error together with the empty resource list and
leaves the world as it was (so no node-capacity lookup is made), whatever the
commodity type and the reservation are; the error is the reservation one when the
reservation is positive and the capacity one otherwise. -/
theorem buildNewCapacity_nonpositive_rejected (env : Env) (pod : Pod)
    (actionItem : ActionItemDTO) (w : World)
    (h : Float64.le (CommodityDTO.GetCapacity actionItem.NewComm) Float64.zero = true) :
    ∃ err, buildNewCapacity env pod actionItem w = (([], some err), w) ∧
      (err = Error.resizeReservationUnsupported ∨
        err = Error.capacityNotBiggerThanZero (CommodityDTO.GetCapacity actionItem.NewComm)) := by
  refine ⟨_, buildNewCapacity_of_lt_one env pod actionItem w
    (Float64.lt_one_of_le_zero _ h), ?_⟩
  split
  · exact Or.inl rfl
  · exact Or.inr rfl

/-- C2 at a VCPU change of capacity -1 with the positive reservation 5. -/
theorem buildNewCapacity_nonpositive_rejected_witness :
    Float64.le (CommodityDTO.GetCapacity
        (some { CommodityType := some CommodityType.VCPU, Capacity := some (Float64.fin (-1)),
                Reservation := some (Float64.fin 5) })) Float64.zero = true ∧
      ∃ err, buildNewCapacity (Env.allGood barePod) barePod
          { TargetSE := none, HostedBySE := none,
            NewComm := some { CommodityType := some CommodityType.VCPU,
                              Capacity := some (Float64.fin (-1)),
                              Reservation := some (Float64.fin 5) } } World.initial
          = (([], some err), World.initial) ∧
        (err = Error.resizeReservationUnsupported ∨
          err = Error.capacityNotBiggerThanZero (CommodityDTO.GetCapacity
            (some { CommodityType := some CommodityType.VCPU,
                    Capacity := some (Float64.fin (-1)),
                    Reservation := some (Float64.fin 5) }))) :=
  ⟨by decide, buildNewCapacity_nonpositive_rejected (Env.allGood barePod) barePod
    { TargetSE := none, HostedBySE := none,
      NewComm := some { CommodityType := some CommodityType.VCPU,
                        Capacity := some (Float64.fin (-1)),
                        Reservation := some (Float64.fin 5) } } World.initial (by decide)⟩

/-! ## C3: mismatching pod ids -/

/-- C3. When the pod id parsed from the id of the target container differs from
the id of the hosting-pod entity, `buildResizeAction` fails with the id-mismatch
error and `Execute` returns an error; both leave the world as it was, so no pod
lookup and no lock, scheduler or mutation call is issued. -/
theorem Execute_id_mismatch (env : Env) (actionItem : ActionItemDTO) (w : World)
    (podId : String) (containerIndex : Int)
    (hparse : env.ParseContainerId (EntityDTO.GetId actionItem.TargetSE)
      = Except.ok (podId, containerIndex))
    (hne : EntityDTO.GetId actionItem.HostedBySE ≠ podId) :
    buildResizeAction env actionItem w =
        (Except.error (Error.podIdMismatch (EntityDTO.GetDisplayName actionItem.HostedBySE)
          podId (EntityDTO.GetId actionItem.HostedBySE)), w) ∧
      Execute env (some actionItem) w = some (some Error.failed, w) := by
  have hb : buildResizeAction env actionItem w =
      (Except.error (Error.podIdMismatch (EntityDTO.GetDisplayName actionItem.HostedBySE)
        podId (EntityDTO.GetId actionItem.HostedBySE)), w) := by
    simp [buildResizeAction, hparse, hne]
  exact ⟨hb, by simp [Execute, hb]⟩

/-- C3 at an item whose container belongs to pod `uid-1` and whose hosting-pod
entity is `uid-2`. -/
theorem Execute_id_mismatch_witness :
    (Env.allGood barePod).ParseContainerId (EntityDTO.GetId
        (some { Id := some "uid-1-0", DisplayName := none })) = Except.ok ("uid-1", 0) ∧
      EntityDTO.GetId (some { Id := some "uid-2", DisplayName := some "default/db" }) ≠ "uid-1" ∧
      Execute (Env.allGood barePod)
        (some { TargetSE := some { Id := some "uid-1-0", DisplayName := none },
                HostedBySE := some { Id := some "uid-2", DisplayName := some "default/db" },
                NewComm := none }) World.initial = some (some Error.failed, World.initial) :=
  ⟨rfl, by decide,
    (Execute_id_mismatch (Env.allGood barePod)
      { TargetSE := some { Id := some "uid-1-0", DisplayName := none },
        HostedBySE := some { Id := some "uid-2", DisplayName := some "default/db" },
        NewComm := none } World.initial "uid-1" 0 rfl (by decide)).2⟩

/-! ## C4: the CPU quantity -/

/-- C4 fails as stated: the amount 1/2 is positive, the commodity is VCPU and the
node capacity 2,000,000 is obtained, yet `buildNewCapacity` returns an error and
the empty list. -/
theorem buildNewCapacity_vcpu_half_rejected :
    Float64.gt (Float64.fin (1 / 2)) Float64.zero = true ∧
      (Env.allGood barePod).GetMachineCpuFrequency barePod.NodeName = Except.ok 2000000 ∧
      buildNewCapacity (Env.allGood barePod) barePod
          (resizeItem CommodityType.VCPU (Float64.fin (1 / 2))) World.initial
        = (([], some (Error.capacityNotBiggerThanZero (Float64.fin (1 / 2)))), World.initial) :=
  ⟨by norm_num [Float64.gt, Float64.lt, Float64.zero], rfl, by
    norm_num [buildNewCapacity, resizeItem, CommodityDTO.GetCapacity,
      CommodityDTO.GetReservation, Float64.lt, Float64.gt, Float64.one, Float64.zero]⟩

/-- C4, amended. For every VCPU capacity change with a finite requested amount
`a` that is at least 1 and a hosting node whose CPU capacity `c` is obtained,
`buildNewCapacity` succeeds after that one lookup and the resource list it returns
holds exactly the CPU entry `a * c`, the quantity builder being the one of the
specification. -/
theorem buildNewCapacity_vcpu_quantity (env : Env) (pod : Pod) (actionItem : ActionItemDTO)
    (w : World) (a : ℚ) (c : Nat)
    (hgen : env.genCPUQuantity = genCPUQuantity)
    (htype : CommodityDTO.GetCommodityType actionItem.NewComm = CommodityType.VCPU)
    (hamount : CommodityDTO.GetCapacity actionItem.NewComm = Float64.fin a)
    (ha : 1 ≤ a)
    (hc : env.GetMachineCpuFrequency pod.NodeName = Except.ok c) :
    buildNewCapacity env pod actionItem w =
      (([(ResourceCPU, a * (c : ℚ))], none),
        w.log (Call.getMachineCpuFrequency pod.NodeName)) := by
  have hlt : Float64.lt (Float64.fin a) Float64.one = false := by
    simp [Float64.lt, Float64.one, ha]
  simp [buildNewCapacity, htype, hamount, hlt, setCPUCapacity, getNodeCPUFrequency, hc, hgen,
    genCPUQuantity, ResourceList.set]

/-- C4, amended, at the amount 2.5 and the node capacity 2,000,000: the CPU
quantity is 5,000,000. -/
theorem buildNewCapacity_vcpu_quantity_witness :
    (Env.allGood barePod).genCPUQuantity = genCPUQuantity ∧
      (1 : ℚ) ≤ 5 / 2 ∧
      (5 / 2 : ℚ) * ((2000000 : Nat) : ℚ) = 5000000 ∧
      buildNewCapacity (Env.allGood barePod) barePod
          (resizeItem CommodityType.VCPU (Float64.fin (5 / 2))) World.initial
        = (([(ResourceCPU, (5 / 2 : ℚ) * ((2000000 : Nat) : ℚ))], none),
            World.initial.log (Call.getMachineCpuFrequency barePod.NodeName)) :=
  ⟨rfl, by norm_num, by norm_num,
    buildNewCapacity_vcpu_quantity (Env.allGood barePod) barePod
      (resizeItem CommodityType.VCPU (Float64.fin (5 / 2))) World.initial (5 / 2) 2000000
      rfl rfl rfl (by norm_num) rfl⟩

/-! ## C5: unsupported commodities and reservation-only changes -/

/-- C5. For every action item whose commodity type is neither VCPU nor VMEM, and
for every action item that carries no capacity (a reservation-only change),
`buildNewCapacity` returns an error with the empty resource list and makes no
call; for a reservation-only change with a positive reservation the error is the
reservation one; and `buildResizeAction` returns an error, so no resize
specification is handed on to be applied. -/
theorem buildNewCapacity_unsupported_rejected (env : Env) (pod : Pod)
    (actionItem : ActionItemDTO) (w : World)
    (h : (CommodityDTO.GetCommodityType actionItem.NewComm ≠ CommodityType.VCPU ∧
          CommodityDTO.GetCommodityType actionItem.NewComm ≠ CommodityType.VMEM) ∨
         (∀ comm, actionItem.NewComm = some comm → comm.Capacity = none)) :
    (∃ err, buildNewCapacity env pod actionItem w = (([], some err), w)) ∧
      ((∀ comm, actionItem.NewComm = some comm → comm.Capacity = none) →
        Float64.gt (CommodityDTO.GetReservation actionItem.NewComm) Float64.zero = true →
        buildNewCapacity env pod actionItem w
          = (([], some Error.resizeReservationUnsupported), w)) ∧
      (∃ err w1, buildResizeAction env actionItem w = (Except.error err, w1)) := by
  have hzero : (∀ comm, actionItem.NewComm = some comm → comm.Capacity = none) →
      Float64.lt (CommodityDTO.GetCapacity actionItem.NewComm) Float64.one = true := by
    intro habs
    rw [GetCapacity_of_absent _ habs]
    decide
  have hall : ∀ pod1 w1, ∃ err, buildNewCapacity env pod1 actionItem w1 = (([], some err), w1) := by
    intro pod1 w1
    rcases h with ⟨hcpu, hmem⟩ | habs
    · exact buildNewCapacity_of_other env pod1 actionItem w1 hcpu hmem
    · exact ⟨_, buildNewCapacity_of_lt_one env pod1 actionItem w1 (hzero habs)⟩
  refine ⟨hall pod w, ?_, buildResizeAction_error_of_capacity_error env actionItem hall w⟩
  intro habs hres
  rw [buildNewCapacity_of_lt_one env pod actionItem w (hzero habs)]
  simp [hres]

/-- C5 at a change of the commodity number 12 with capacity 100. -/
theorem buildNewCapacity_unsupported_rejected_witness :
    CommodityDTO.GetCommodityType
        (resizeItem (CommodityType.other 12) (Float64.fin 100)).NewComm ≠ CommodityType.VCPU ∧
      CommodityDTO.GetCommodityType
        (resizeItem (CommodityType.other 12) (Float64.fin 100)).NewComm ≠ CommodityType.VMEM ∧
      ∃ err, buildNewCapacity (Env.allGood barePod) barePod
          (resizeItem (CommodityType.other 12) (Float64.fin 100)) World.initial
        = (([], some err), World.initial) :=
  ⟨by decide, by decide,
    (buildNewCapacity_unsupported_rejected (Env.allGood barePod) barePod
      (resizeItem (CommodityType.other 12) (Float64.fin 100)) World.initial
      (Or.inl ⟨by decide, by decide⟩)).1⟩

/-! ## Traces of the helpers -/

/-- The lock wait only issues `Acquirelock` calls, leaves the scheduler names
alone, and holds the lock when it ends without error. -/
theorem RetryDuring_acquirelock (env : Env) (n : Nat) (w : World) :
    ∃ k, (RetryDuring n (acquirelockAttempt env) w).2.trace
          = w.trace ++ List.replicate k Call.acquirelock ∧
      (RetryDuring n (acquirelockAttempt env) w).2.controllerScheduler = w.controllerScheduler ∧
      (RetryDuring n (acquirelockAttempt env) w).2.stagedScheduler = w.stagedScheduler ∧
      ((RetryDuring n (acquirelockAttempt env) w).1 = none →
        (RetryDuring n (acquirelockAttempt env) w).2.locked = true) := by
  induction n generalizing w with
  | zero => exact ⟨0, by simp [RetryDuring]⟩
  | succ n ih =>
    cases h : env.acquirelockAnswer w.lockAttempts with
    | true =>
      refine ⟨1, ?_⟩
      simp [RetryDuring, acquirelockAttempt, Acquirelock, h]
    | false =>
      obtain ⟨k, ht, hc, hs, hl⟩ := ih
        { w with trace := w.trace ++ [Call.acquirelock], lockAttempts := w.lockAttempts + 1 }
      refine ⟨k + 1, ?_⟩
      simp only [RetryDuring, acquirelockAttempt, Acquirelock, h, Bool.or_false]
      refine ⟨?_, hc, hs, hl⟩
      rw [ht]
      simp [List.replicate_succ]

/-- What holds once the parent lock was acquired. -/
theorem acquireParentLock_acquired (env : Env) (pod : Pod) (parentKind parentName : String)
    (w w3 : World) (h : acquireParentLock env pod parentKind parentName w = (none, w3)) :
    ∃ k, w3.trace = w.trace ++ (Call.newSchedulerHelper pod.Namespace pod.Name parentKind
            parentName env.noneSchedulerName (highver env) :: Call.setupLock
            :: List.replicate k Call.acquirelock) ∧
      w3.controllerScheduler = w.controllerScheduler ∧
      w3.stagedScheduler = none ∧
      w3.locked = true := by
  unfold acquireParentLock at h
  cases hn : env.newSchedulerHelperErr with
  | some err => simp [NewSchedulerHelper, hn] at h
  | none =>
    cases hs : env.setupLockErr with
    | some err => simp [NewSchedulerHelper, hn, SetupLock, hs] at h
    | none =>
      simp only [NewSchedulerHelper, hn, SetupLock, hs] at h
      obtain ⟨k, ht, hc, hst, hl⟩ := RetryDuring_acquirelock env (min 1000 env.waitLockAttempts)
        (World.log { World.log w (Call.newSchedulerHelper pod.Namespace pod.Name parentKind
          parentName env.noneSchedulerName (highver env)) with stagedScheduler := none }
          Call.setupLock)
      rw [h] at ht hc hst hl
      refine ⟨k, ?_, ?_, ?_, hl rfl⟩
      · rw [ht]; simp [World.log]
      · rw [hc]; simp [World.log]
      · rw [hst]; simp [World.log]

/-- The statements after `defer` issue one, or three, calls, none of them a
cleanup call. -/
theorem resizeControllerContainerSteps_trace (env : Env) (pod : Pod) (index : Int)
    (capacity : ResourceList) (noexist : String) (w : World) :
    (resizeControllerContainerSteps env pod index capacity noexist w).2.trace
        = w.trace ++ [Call.updateScheduler noexist env.defaultRetryLess] ∨
      (resizeControllerContainerSteps env pod index capacity noexist w).2.trace
        = w.trace ++ [Call.updateScheduler noexist env.defaultRetryLess,
            Call.setScheduler w.controllerScheduler,
            Call.resizeContainer pod.Namespace pod.Name index capacity env.defaultRetryLess] := by
  cases hu : env.updateSchedulerErr with
  | some err =>
    left
    simp [resizeControllerContainerSteps, UpdateScheduler, hu, World.log]
  | none =>
    right
    cases hr : env.resizeContainerErr <;>
      simp [resizeControllerContainerSteps, UpdateScheduler, hu, World.log, SetScheduler,
        resizeContainer, hr]

/-- The deferred function releases the lock. -/
theorem resizeControllerContainerDeferred_locked (env : Env) (pod : Pod)
    (parentKind parentName noexist : String) (hv : Bool) (w : World) :
    (resizeControllerContainerDeferred env pod parentKind parentName noexist hv w).locked
      = false := by
  simp only [resizeControllerContainerDeferred, CleanPendingPod, CleanUp, World.log]
  cases w.stagedScheduler <;> cases env.restoreFails <;> simp

/-- The deferred function issues `CleanUp`, then `CleanPendingPod`. -/
theorem resizeControllerContainerDeferred_trace (env : Env) (pod : Pod)
    (parentKind parentName noexist : String) (hv : Bool) (w : World) :
    (resizeControllerContainerDeferred env pod parentKind parentName noexist hv w).trace
      = w.trace ++ [Call.cleanUp w.stagedScheduler,
          Call.cleanPendingPod pod.Namespace noexist parentKind parentName hv] := by
  simp only [resizeControllerContainerDeferred, CleanPendingPod, CleanUp, World.log]
  cases w.stagedScheduler <;> cases env.restoreFails <;> simp

/-- Once the lock is held, `resizeControllerContainer` is the statements after the
`defer`, followed by the deferred function. -/
theorem resizeControllerContainer_of_locked (env : Env) (pod : Pod)
    (parentKind parentName : String) (index : Int) (capacity : ResourceList) (w w3 : World)
    (hlock : acquireParentLock env pod parentKind parentName w = (none, w3)) :
    resizeControllerContainer env pod parentKind parentName index capacity w =
      ((resizeControllerContainerSteps env pod index capacity env.noneSchedulerName
          (KeepRenewLock w3)).1,
        resizeControllerContainerDeferred env pod parentKind parentName env.noneSchedulerName
          (highver env) (resizeControllerContainerSteps env pod index capacity
            env.noneSchedulerName (KeepRenewLock w3)).2) := by
  simp [resizeControllerContainer, hlock]

/-! ## C6: the cleanup runs once -/

/-- C6. In `resizeControllerContainer`, on every execution in which the parent
lock was acquired, the calls of the execution are: calls that are no cleanup
call, then `helper.CleanUp`, then `CleanPendingPod`, and nothing after; so the
cleanup sequence runs exactly once, last, whatever the scheduler update and the
mutation answer. After it the lock is released. -/
theorem resizeControllerContainer_cleanup_once (env : Env) (pod : Pod)
    (parentKind parentName : String) (index : Int) (capacity : ResourceList) (w w3 : World)
    (hlock : acquireParentLock env pod parentKind parentName w = (none, w3)) :
    ∃ before staged,
      (resizeControllerContainer env pod parentKind parentName index capacity w).2.trace
        = w.trace ++ before ++ [Call.cleanUp staged,
            Call.cleanPendingPod pod.Namespace env.noneSchedulerName parentKind parentName
              (highver env)] ∧
      (∀ c ∈ before, c.isCleanupCall = false) ∧
      (resizeControllerContainer env pod parentKind parentName index capacity w).2.locked
        = false := by
  obtain ⟨k, ht, -, -, -⟩ := acquireParentLock_acquired env pod parentKind parentName w w3 hlock
  have hlocked := resizeControllerContainerDeferred_locked env pod parentKind parentName
    env.noneSchedulerName (highver env)
  have htrace := resizeControllerContainerDeferred_trace env pod parentKind parentName
    env.noneSchedulerName (highver env)
  rw [resizeControllerContainer_of_locked env pod parentKind parentName index capacity w w3 hlock]
  rcases resizeControllerContainerSteps_trace env pod index capacity env.noneSchedulerName
    (KeepRenewLock w3) with h5 | h5
  · refine ⟨(Call.newSchedulerHelper pod.Namespace pod.Name parentKind parentName
        env.noneSchedulerName (highver env) :: Call.setupLock
        :: List.replicate k Call.acquirelock) ++ [Call.keepRenewLock,
          Call.updateScheduler env.noneSchedulerName env.defaultRetryLess],
      (resizeControllerContainerSteps env pod index capacity env.noneSchedulerName
        (KeepRenewLock w3)).2.stagedScheduler, ?_, ?_, hlocked _⟩
    · rw [htrace, h5]
      simp [KeepRenewLock, World.log, ht]
    · intro c hc
      simp only [List.cons_append, List.mem_cons, List.mem_append, List.mem_replicate,
        List.not_mem_nil, or_false] at hc
      rcases hc with rfl | rfl | ⟨-, rfl⟩ | rfl | rfl <;> rfl
  · refine ⟨(Call.newSchedulerHelper pod.Namespace pod.Name parentKind parentName
        env.noneSchedulerName (highver env) :: Call.setupLock
        :: List.replicate k Call.acquirelock) ++ [Call.keepRenewLock,
          Call.updateScheduler env.noneSchedulerName env.defaultRetryLess,
          Call.setScheduler (KeepRenewLock w3).controllerScheduler,
          Call.resizeContainer pod.Namespace pod.Name index capacity env.defaultRetryLess],
      (resizeControllerContainerSteps env pod index capacity env.noneSchedulerName
        (KeepRenewLock w3)).2.stagedScheduler, ?_, ?_, hlocked _⟩
    · rw [htrace, h5]
      simp [KeepRenewLock, World.log, ht]
    · intro c hc
      simp only [List.cons_append, List.mem_cons, List.mem_append, List.mem_replicate,
        List.not_mem_nil, or_false] at hc
      rcases hc with rfl | rfl | ⟨-, rfl⟩ | rfl | rfl | rfl | rfl <;> rfl

/-- C6 at the owned pod when the container mutation fails. -/
theorem resizeControllerContainer_cleanup_once_witness :
    acquireParentLock (Env.mutationFails ownedPod) ownedPod "ReplicaSet" "web-rs" World.initial
        = (none, World.parentLocked) ∧
      ∃ before staged,
        (resizeControllerContainer (Env.mutationFails ownedPod) ownedPod "ReplicaSet" "web-rs" 0
            [(ResourceMemory, 2048)] World.initial).2.trace
          = World.initial.trace ++ before ++ [Call.cleanUp staged,
              Call.cleanPendingPod ownedPod.Namespace (Env.mutationFails ownedPod).noneSchedulerName
                "ReplicaSet" "web-rs" (highver (Env.mutationFails ownedPod))] ∧
        (∀ c ∈ before, c.isCleanupCall = false) ∧
        (resizeControllerContainer (Env.mutationFails ownedPod) ownedPod "ReplicaSet" "web-rs" 0
            [(ResourceMemory, 2048)] World.initial).2.locked = false :=
  ⟨by decide,
    resizeControllerContainer_cleanup_once (Env.mutationFails ownedPod) ownedPod "ReplicaSet"
      "web-rs" 0 [(ResourceMemory, 2048)] World.initial World.parentLocked (by decide)⟩

/-! ## C7: the scheduler name restored is the original one -/

/-- C7. On the controller path, once the lock is held and `UpdateScheduler`
returned the name `pre`: `pre` is the scheduler name the controller had, it is
staged with `SetScheduler` before the mutation is attempted, the cleanup restores
exactly `pre` (and the controller has it again unless that write fails), and this
is so both when the mutation succeeds (the function returns nil) and when it
fails (the function returns TryLater). -/
theorem resizeControllerContainer_restores_original (env : Env) (pod : Pod)
    (parentKind parentName : String) (index : Int) (capacity : ResourceList) (w w3 : World)
    (pre : String)
    (hlock : acquireParentLock env pod parentKind parentName w = (none, w3))
    (hupd : (UpdateScheduler env env.noneSchedulerName env.defaultRetryLess
      (KeepRenewLock w3)).1 = Except.ok pre) :
    pre = w.controllerScheduler ∧
      (resizeControllerContainer env pod parentKind parentName index capacity w).2.trace
        = w3.trace ++ [Call.keepRenewLock,
            Call.updateScheduler env.noneSchedulerName env.defaultRetryLess,
            Call.setScheduler pre,
            Call.resizeContainer pod.Namespace pod.Name index capacity env.defaultRetryLess,
            Call.cleanUp (some pre),
            Call.cleanPendingPod pod.Namespace env.noneSchedulerName parentKind parentName
              (highver env)] ∧
      (env.restoreFails = false →
        (resizeControllerContainer env pod parentKind parentName index capacity w).2.controllerScheduler
          = pre) ∧
      (env.resizeContainerErr = none →
        (resizeControllerContainer env pod parentKind parentName index capacity w).1 = none) ∧
      (env.resizeContainerErr ≠ none →
        (resizeControllerContainer env pod parentKind parentName index capacity w).1
          = some Error.tryLater) := by
  obtain ⟨k, -, hc, -, -⟩ := acquireParentLock_acquired env pod parentKind parentName w w3 hlock
  cases hu : env.updateSchedulerErr with
  | some err => simp [UpdateScheduler, hu] at hupd
  | none =>
    simp only [UpdateScheduler, hu, KeepRenewLock, World.log, Except.ok.injEq] at hupd
    subst hupd
    refine ⟨hc, ?_, ?_, ?_, ?_⟩
    · cases hr : env.resizeContainerErr <;> cases hf : env.restoreFails <;>
        simp [resizeControllerContainer, hlock, resizeControllerContainerSteps, UpdateScheduler,
          hu, KeepRenewLock, World.log, SetScheduler, resizeContainer, hr,
          resizeControllerContainerDeferred, CleanPendingPod, CleanUp, hf]
    · intro hf
      cases hr : env.resizeContainerErr <;>
        simp [resizeControllerContainer, hlock, resizeControllerContainerSteps, UpdateScheduler,
          hu, KeepRenewLock, World.log, SetScheduler, resizeContainer, hr,
          resizeControllerContainerDeferred, CleanPendingPod, CleanUp, hf]
    · intro hr
      simp [resizeControllerContainer, hlock, resizeControllerContainerSteps, UpdateScheduler,
        hu, KeepRenewLock, World.log, SetScheduler, resizeContainer, hr]
    · intro hr
      cases hr1 : env.resizeContainerErr with
      | none => exact absurd hr1 hr
      | some err =>
        simp [resizeControllerContainer, hlock, resizeControllerContainerSteps, UpdateScheduler,
          hu, KeepRenewLock, World.log, SetScheduler, resizeContainer, hr1]

/-- C7 at the owned pod when the container mutation fails: the controller has
its `default-scheduler` again. -/
theorem resizeControllerContainer_restores_original_witness :
    acquireParentLock (Env.mutationFails ownedPod) ownedPod "ReplicaSet" "web-rs" World.initial
        = (none, World.parentLocked) ∧
      (Env.mutationFails ownedPod).restoreFails = false ∧
      (resizeControllerContainer (Env.mutationFails ownedPod) ownedPod "ReplicaSet" "web-rs" 0
          [(ResourceMemory, 2048)] World.initial).2.controllerScheduler = "default-scheduler" :=
  ⟨by decide, rfl,
    (resizeControllerContainer_restores_original (Env.mutationFails ownedPod) ownedPod
      "ReplicaSet" "web-rs" 0 [(ResourceMemory, 2048)] World.initial World.parentLocked
      "default-scheduler" (by decide) rfl).2.2.1 rfl⟩

/-! ## The resize specification is never empty -/

/-- When `buildNewCapacity` returns without error, the resource list has one
entry: the CPU key for VCPU, the memory key for VMEM. -/
theorem buildNewCapacity_ok_entries (env : Env) (pod : Pod) (actionItem : ActionItemDTO)
    (w w1 : World) (rlist : ResourceList)
    (h : buildNewCapacity env pod actionItem w = ((rlist, none), w1)) :
    (CommodityDTO.GetCommodityType actionItem.NewComm = CommodityType.VCPU ∧
        ∃ q, rlist = [(ResourceCPU, q)]) ∨
      (CommodityDTO.GetCommodityType actionItem.NewComm = CommodityType.VMEM ∧
        ∃ q, rlist = [(ResourceMemory, q)]) := by
  by_cases hlt : Float64.lt (CommodityDTO.GetCapacity actionItem.NewComm) Float64.one = true
  · rw [buildNewCapacity_of_lt_one env pod actionItem w hlt] at h
    simp at h
  · cases hc : CommodityDTO.GetCommodityType actionItem.NewComm with
    | VCPU =>
      left
      refine ⟨rfl, ?_⟩
      simp only [buildNewCapacity, hlt, hc, setCPUCapacity, getNodeCPUFrequency] at h
      cases hf : env.GetMachineCpuFrequency pod.NodeName with
      | error err => simp [hf] at h
      | ok c =>
        cases hg : env.genCPUQuantity (CommodityDTO.GetCapacity actionItem.NewComm) c with
        | error err => simp [hf, hg] at h
        | ok q =>
          simp [hf, hg, ResourceList.set] at h
          exact ⟨q, h.1.symm⟩
    | VMEM =>
      right
      refine ⟨rfl, ?_⟩
      simp only [buildNewCapacity, hlt, hc] at h
      cases hg : env.genMemoryQuantity (CommodityDTO.GetCapacity actionItem.NewComm) with
      | error err => simp [hg] at h
      | ok q =>
        simp [hg, ResourceList.set] at h
        exact ⟨q, h.1.symm⟩
    | other code =>
      simp [buildNewCapacity, hlt, hc] at h

/-- Every resize specification that `buildResizeAction` returns has a non-empty
capacity: `executeAction` is never handed an empty one by `Execute`. -/
theorem buildResizeAction_capacity_nonempty (env : Env) (actionItem : ActionItemDTO)
    (w w1 : World) (resizeSpec : containerResizeSpec) (pod : Pod)
    (h : buildResizeAction env actionItem w = (Except.ok (resizeSpec, pod), w1)) :
    1 ≤ resizeSpec.NewCapacity.length := by
  cases hp : env.ParseContainerId (EntityDTO.GetId actionItem.TargetSE) with
  | error err => simp [buildResizeAction, hp] at h
  | ok r =>
    obtain ⟨podId, containerIndex⟩ := r
    by_cases hid : EntityDTO.GetId actionItem.HostedBySE = podId
    · cases hg : GetPodFromUUID env podId w with
      | mk res w2 =>
        cases res with
        | error err => simp [buildResizeAction, hp, hid, hg] at h
        | ok pod1 =>
          cases hb : buildNewCapacity env pod1 actionItem w2 with
          | mk r2 w3 =>
            obtain ⟨rlist, err⟩ := r2
            cases err with
            | some e => simp [buildResizeAction, hp, hid, hg, hb] at h
            | none =>
              simp [buildResizeAction, hp, hid, hg, hb] at h
              obtain ⟨⟨hs, -⟩, -⟩ := h
              subst hs
              rcases buildNewCapacity_ok_entries env pod1 actionItem w2 w3 rlist hb with
                ⟨-, q, hq⟩ | ⟨-, q, hq⟩ <;> simp [hq]
    · simp [buildResizeAction, hp, hid] at h

/-! ## C8: the path is chosen by the owner -/

/-- The bare-pod path issues no call on a controller scheduler. -/
theorem resizeBarePodContainer_trace (env : Env) (pod : Pod) (index : Int)
    (capacity : ResourceList) (w : World) :
    ∃ added, (resizeBarePodContainer env pod index capacity w).2.trace = w.trace ++ added ∧
      ∀ c ∈ added, c.isSchedulerCall = false := by
  cases hn : env.newLockHelperErr with
  | some err =>
    refine ⟨[Call.newLockHelper (BuildIdentifier pod.Namespace pod.Name)], ?_, ?_⟩
    · simp [resizeBarePodContainer, NewLockHelper, hn, World.log]
    · intro c hc
      simp only [List.mem_singleton] at hc
      subst hc; rfl
  | none =>
    cases ht : env.trylockErr with
    | some err =>
      refine ⟨[Call.newLockHelper (BuildIdentifier pod.Namespace pod.Name), Call.trylock], ?_, ?_⟩
      · simp [resizeBarePodContainer, NewLockHelper, hn, World.log, Trylock, ht]
      · intro c hc
        simp only [List.mem_cons, List.mem_singleton, List.not_mem_nil, or_false] at hc
        rcases hc with rfl | rfl <;> rfl
    | none =>
      refine ⟨[Call.newLockHelper (BuildIdentifier pod.Namespace pod.Name), Call.trylock,
        Call.keepRenewLock,
        Call.resizeContainer pod.Namespace pod.Name index capacity env.defaultRetryMore,
        Call.releaseLock], ?_, ?_⟩
      · simp [resizeBarePodContainer, NewLockHelper, hn, World.log, Trylock, ht, KeepRenewLock,
          resizeContainer, ReleaseLock]
      · intro c hc
        simp only [List.mem_cons, List.mem_singleton, List.not_mem_nil, or_false] at hc
        rcases hc with rfl | rfl | rfl | rfl | rfl <;> rfl

/-- The lock wait never shortens the trace. -/
theorem RetryDuring_acquirelock_trace (env : Env) (n : Nat) (w : World) :
    ∃ rest, (RetryDuring n (acquirelockAttempt env) w).2.trace = w.trace ++ rest := by
  obtain ⟨k, hk, -⟩ := RetryDuring_acquirelock env n w
  exact ⟨_, hk⟩

/-- The controller path starts by building the scheduler helper. -/
theorem resizeControllerContainer_trace (env : Env) (pod : Pod)
    (parentKind parentName : String) (index : Int) (capacity : ResourceList) (w : World) :
    ∃ rest, (resizeControllerContainer env pod parentKind parentName index capacity w).2.trace
      = w.trace ++ Call.newSchedulerHelper pod.Namespace pod.Name parentKind parentName
          env.noneSchedulerName (highver env) :: rest := by
  cases hl : acquireParentLock env pod parentKind parentName w with
  | mk r w3 =>
    cases r with
    | none =>
      obtain ⟨k, hk, -⟩ := acquireParentLock_acquired env pod parentKind parentName w w3 hl
      rw [resizeControllerContainer_of_locked env pod parentKind parentName index capacity w w3
        hl]
      simp only [resizeControllerContainerDeferred_trace]
      rcases resizeControllerContainerSteps_trace env pod index capacity env.noneSchedulerName
        (KeepRenewLock w3) with h5 | h5
      · exact ⟨Call.setupLock :: (List.replicate k Call.acquirelock ++ Call.keepRenewLock :: _),
          by rw [h5]; simp [KeepRenewLock, World.log, hk]; rfl⟩
      · exact ⟨Call.setupLock :: (List.replicate k Call.acquirelock ++ Call.keepRenewLock :: _),
          by rw [h5]; simp [KeepRenewLock, World.log, hk]; rfl⟩
    | some err =>
      have hres : (resizeControllerContainer env pod parentKind parentName index capacity w).2
          = w3 := by
        simp [resizeControllerContainer, hl]
      rw [hres]
      unfold acquireParentLock at hl
      cases hn : env.newSchedulerHelperErr with
      | some e1 =>
        simp only [NewSchedulerHelper, hn, Prod.mk.injEq] at hl
        exact ⟨[], by rw [← hl.2]; simp [World.log]⟩
      | none =>
        cases hs : env.setupLockErr with
        | some e2 =>
          simp only [NewSchedulerHelper, hn, SetupLock, hs, Prod.mk.injEq] at hl
          exact ⟨[Call.setupLock], by rw [← hl.2]; simp [World.log]⟩
        | none =>
          simp only [NewSchedulerHelper, hn, SetupLock, hs] at hl
          obtain ⟨rest, hrest⟩ := RetryDuring_acquirelock_trace env
            (min 1000 env.waitLockAttempts)
            (World.log { World.log w (Call.newSchedulerHelper pod.Namespace pod.Name parentKind
              parentName env.noneSchedulerName (highver env)) with stagedScheduler := none }
              Call.setupLock)
          rw [hl] at hrest
          exact ⟨Call.setupLock :: rest, by rw [hrest]; simp [World.log]⟩

/-- C8. Past the check that the resize specification is not empty, when
`GetPodParentInfo` reports the parent `(parentKind, parentName)` without error:
if the kind is empty, `executeAction` runs `resizeBarePodContainer` and the calls
this adds to the trace include no scheduler-helper creation, `UpdateScheduler`,
`SetScheduler`, `CleanUp` or `CleanPendingPod`; if the kind is not empty, it runs
`resizeControllerContainer`, whose first call builds the scheduler helper. -/
theorem executeAction_path_by_owner (env : Env) (resizeSpec : containerResizeSpec) (pod : Pod)
    (w : World) (parentKind parentName : String)
    (hspec : 1 ≤ resizeSpec.NewCapacity.length)
    (hparent : GetPodParentInfo env pod = some (parentKind, parentName, none)) :
    (parentKind = "" →
      executeAction env resizeSpec pod w = some (none,
          (resizeBarePodContainer env pod resizeSpec.Index resizeSpec.NewCapacity w).2) ∧
        ∃ added,
          (resizeBarePodContainer env pod resizeSpec.Index resizeSpec.NewCapacity w).2.trace
            = w.trace ++ added ∧
          ∀ c ∈ added, c.isSchedulerCall = false) ∧
    (parentKind ≠ "" →
      executeAction env resizeSpec pod w = some (none,
          (resizeControllerContainer env pod parentKind parentName resizeSpec.Index
            resizeSpec.NewCapacity w).2) ∧
        ∃ rest,
          (resizeControllerContainer env pod parentKind parentName resizeSpec.Index
            resizeSpec.NewCapacity w).2.trace
            = w.trace ++ Call.newSchedulerHelper pod.Namespace pod.Name parentKind parentName
                env.noneSchedulerName (highver env) :: rest) := by
  have hlen : ¬ resizeSpec.NewCapacity.length < 1 := by omega
  constructor
  · intro hk
    refine ⟨?_, resizeBarePodContainer_trace env pod resizeSpec.Index resizeSpec.NewCapacity w⟩
    simp [executeAction, hlen, hparent, resizeOnPath, hk]
  · intro hk
    refine ⟨?_, resizeControllerContainer_trace env pod parentKind parentName resizeSpec.Index
      resizeSpec.NewCapacity w⟩
    simp [executeAction, hlen, hparent, resizeOnPath, hk]

/-- C8 at the pod without owner: the calls are those of the lock helper and the
mutation. -/
theorem executeAction_path_by_owner_witness :
    1 ≤ ({ NewCapacity := [(ResourceMemory, 2048)], Index := 0 } :
        containerResizeSpec).NewCapacity.length ∧
      GetPodParentInfo (Env.allGood barePod) barePod = some ("", "", none) ∧
      executeAction (Env.allGood barePod) { NewCapacity := [(ResourceMemory, 2048)], Index := 0 }
          barePod World.initial
        = some (none, (resizeBarePodContainer (Env.allGood barePod) barePod 0
            [(ResourceMemory, 2048)] World.initial).2) :=
  ⟨by decide, by decide,
    ((executeAction_path_by_owner (Env.allGood barePod)
      { NewCapacity := [(ResourceMemory, 2048)], Index := 0 } barePod World.initial "" ""
      (by decide) (by decide)).1 rfl).1⟩

/-! ## C9: a pod that is being deleted -/

/-- C9 fails as stated: a polled pod that carries a deletion marker and is in
phase Running makes `doCheckPod` return no error (and no retry). -/
theorem doCheckPod_running_deleted :
    (Env.allGood deletedRunningPod).getPodAnswer World.initial.polls
        = Except.ok deletedRunningPod ∧
      deletedRunningPod.DeletionGracePeriodSeconds = some 30 ∧
      deletedRunningPod.Phase = PodRunning ∧
      (doCheckPod (Env.allGood deletedRunningPod) "default" "web" World.initial).1
        = (false, none) ∧
      (checkPod (Env.allGood deletedRunningPod) deletedRunningPod World.initial).1 = none :=
  ⟨rfl, rfl, rfl, by decide, by decide⟩

/-- C9, amended. For every polled pod state that carries a deletion marker and
whose phase is not Running, `doCheckPod` returns the error `Pod is being deleted.`
with retry = false; so the polling loop, at any step at which an attempt is left,
ends there with that error, this poll being the last call. -/
theorem doCheckPod_deleted (env : Env) (ns name : String) (w : World) (pod : Pod)
    (hpoll : env.getPodAnswer w.polls = Except.ok pod)
    (hdel : pod.DeletionGracePeriodSeconds ≠ none)
    (hphase : pod.Phase ≠ PodRunning) :
    (doCheckPod env ns name w).1 = (false, some Error.podBeingDeleted) ∧
      ∀ n, RetrySimple (n + 1) (doCheckPod env ns name) w
        = (some Error.podBeingDeleted,
            { w with trace := w.trace ++ [Call.getPod ns name], polls := w.polls + 1 }) := by
  have h : doCheckPod env ns name w = ((false, some Error.podBeingDeleted),
      { w with trace := w.trace ++ [Call.getPod ns name], polls := w.polls + 1 }) := by
    simp [doCheckPod, GetPod, hpoll, hphase, hdel]
  exact ⟨by rw [h], fun n => by simp [RetrySimple, h]⟩

/-- C9, amended, at a pending pod with a deletion marker. -/
theorem doCheckPod_deleted_witness :
    (Env.allGood deletedPendingPod).getPodAnswer World.initial.polls
        = Except.ok deletedPendingPod ∧
      deletedPendingPod.DeletionGracePeriodSeconds ≠ none ∧
      deletedPendingPod.Phase ≠ PodRunning ∧
      (doCheckPod (Env.allGood deletedPendingPod) "default" "web" World.initial).1
        = (false, some Error.podBeingDeleted) :=
  ⟨rfl, by decide, by decide,
    (doCheckPod_deleted (Env.allGood deletedPendingPod) "default" "web" World.initial
      deletedPendingPod rfl (by decide) (by decide)).1⟩

/-! ## C10: verification by polling -/

/-- The answer of `doCheckPod` on a polled pod without deletion marker. -/
theorem doCheckPod_of_not_deleted (env : Env) (ns name : String) (w : World) (pod : Pod)
    (hpoll : env.getPodAnswer w.polls = Except.ok pod)
    (hdel : pod.DeletionGracePeriodSeconds = none) :
    (doCheckPod env ns name w).1 =
      if pod.Phase = PodRunning then (false, none)
      else (true, some (Error.podNotRunning pod.Phase)) := by
  by_cases hphase : pod.Phase = PodRunning <;>
    simp [doCheckPod, GetPod, hpoll, hphase, hdel]

/-- Every poll counts. -/
theorem doCheckPod_polls (env : Env) (ns name : String) (w : World) :
    (doCheckPod env ns name w).2.polls = w.polls + 1 := by
  unfold doCheckPod GetPod
  cases env.getPodAnswer w.polls with
  | error err => rfl
  | ok pod =>
    by_cases hphase : pod.Phase = PodRunning
    · simp [hphase]
    · by_cases hdel : pod.DeletionGracePeriodSeconds = none <;> simp [hphase, hdel]

/-- The polling loop over pods without deletion marker: it succeeds exactly when
one of the next `n` polls shows a running pod, and otherwise gives up after `n`
polls. -/
theorem RetrySimple_doCheckPod (env : Env) (ns name : String)
    (hnodel : ∀ k p, env.getPodAnswer k = Except.ok p → p.DeletionGracePeriodSeconds = none)
    (n : Nat) (w : World) :
    ((RetrySimple n (doCheckPod env ns name) w).1 = none ↔
        ∃ k, k < n ∧ ∃ p, env.getPodAnswer (w.polls + k) = Except.ok p ∧ p.Phase = PodRunning) ∧
      ((¬ ∃ k, k < n ∧ ∃ p, env.getPodAnswer (w.polls + k) = Except.ok p ∧ p.Phase = PodRunning) →
        (RetrySimple n (doCheckPod env ns name) w).1 = some Error.retryExhausted ∧
        (RetrySimple n (doCheckPod env ns name) w).2.polls = w.polls + n) := by
  induction n generalizing w with
  | zero => simp [RetrySimple]
  | succ n ih =>
    have hshift : ∀ w1 : World, w1.polls = w.polls + 1 →
        ((∃ k, k < n ∧ ∃ p, env.getPodAnswer (w1.polls + k) = Except.ok p ∧ p.Phase = PodRunning) ↔
          ∃ k, 0 < k ∧ k < n + 1 ∧ ∃ p, env.getPodAnswer (w.polls + k) = Except.ok p ∧
            p.Phase = PodRunning) := by
      intro w1 hw1
      constructor
      · rintro ⟨k, hk, p, hp, hr⟩
        exact ⟨k + 1, by omega, by omega, p, by rw [← hp, hw1]; congr 1; omega, hr⟩
      · rintro ⟨k, hk0, hk, p, hp, hr⟩
        exact ⟨k - 1, by omega, p, by rw [← hp, hw1]; congr 1; omega, hr⟩
    cases hd : doCheckPod env ns name w with
    | mk r w1 =>
      have hw1 : w1.polls = w.polls + 1 := by
        have := doCheckPod_polls env ns name w
        rw [hd] at this
        exact this
      obtain ⟨retry, err⟩ := r
      cases hpoll : env.getPodAnswer w.polls with
      | error e =>
        have hr : retry = true := by
          have : (doCheckPod env ns name w).1 = (true, some e) := by
            simp [doCheckPod, GetPod, hpoll]
          rw [hd] at this
          exact (Prod.mk.inj this).1
        subst hr
        have hstep : RetrySimple (n + 1) (doCheckPod env ns name) w
            = RetrySimple n (doCheckPod env ns name) w1 := by
          simp [RetrySimple, hd]
        have hzero : ¬ ∃ p, env.getPodAnswer (w.polls + 0) = Except.ok p ∧ p.Phase = PodRunning := by
          rintro ⟨p, hp, -⟩
          rw [Nat.add_zero, hpoll] at hp
          exact Except.noConfusion hp
        have hiff : (∃ k, k < n + 1 ∧ ∃ p, env.getPodAnswer (w.polls + k) = Except.ok p ∧
            p.Phase = PodRunning) ↔
            ∃ k, k < n ∧ ∃ p, env.getPodAnswer (w1.polls + k) = Except.ok p ∧
              p.Phase = PodRunning := by
          rw [hshift w1 hw1]
          constructor
          · rintro ⟨k, hk, hex⟩
            rcases Nat.eq_zero_or_pos k with h0 | h0
            · subst h0; exact absurd hex hzero
            · exact ⟨k, h0, hk, hex⟩
          · rintro ⟨k, -, hk, hex⟩
            exact ⟨k, hk, hex⟩
        rw [hstep, hiff]
        obtain ⟨ih1, ih2⟩ := ih w1
        refine ⟨ih1, fun hno => ?_⟩
        obtain ⟨h1, h2⟩ := ih2 hno
        exact ⟨h1, by rw [h2, hw1]; omega⟩
      | ok pod =>
        have hans := doCheckPod_of_not_deleted env ns name w pod hpoll (hnodel _ _ hpoll)
        rw [hd] at hans
        by_cases hphase : pod.Phase = PodRunning
        · simp only [hphase, if_true] at hans
          obtain ⟨hr, he⟩ := Prod.mk.inj hans
          subst hr; subst he
          have hstep : RetrySimple (n + 1) (doCheckPod env ns name) w = (none, w1) := by
            simp [RetrySimple, hd]
          have hex : ∃ k, k < n + 1 ∧ ∃ p, env.getPodAnswer (w.polls + k) = Except.ok p ∧
              p.Phase = PodRunning := ⟨0, by omega, pod, by simpa using hpoll, hphase⟩
          rw [hstep]
          exact ⟨⟨fun _ => hex, fun _ => rfl⟩, fun hno => absurd hex hno⟩
        · simp only [hphase, if_false] at hans
          obtain ⟨hr, -⟩ := Prod.mk.inj hans
          subst hr
          have hstep : RetrySimple (n + 1) (doCheckPod env ns name) w
              = RetrySimple n (doCheckPod env ns name) w1 := by
            simp [RetrySimple, hd]
          have hzero : ¬ ∃ p, env.getPodAnswer (w.polls + 0) = Except.ok p ∧
              p.Phase = PodRunning := by
            rintro ⟨p, hp, hrun⟩
            rw [Nat.add_zero, hpoll] at hp
            cases hp
            exact hphase hrun
          have hiff : (∃ k, k < n + 1 ∧ ∃ p, env.getPodAnswer (w.polls + k) = Except.ok p ∧
              p.Phase = PodRunning) ↔
              ∃ k, k < n ∧ ∃ p, env.getPodAnswer (w1.polls + k) = Except.ok p ∧
                p.Phase = PodRunning := by
            rw [hshift w1 hw1]
            constructor
            · rintro ⟨k, hk, hex⟩
              rcases Nat.eq_zero_or_pos k with h0 | h0
              · subst h0; exact absurd hex hzero
              · exact ⟨k, h0, hk, hex⟩
            · rintro ⟨k, -, hk, hex⟩
              exact ⟨k, hk, hex⟩
          rw [hstep, hiff]
          obtain ⟨ih1, ih2⟩ := ih w1
          refine ⟨ih1, fun hno => ?_⟩
          obtain ⟨h1, h2⟩ := ih2 hno
          exact ⟨h1, by rw [h2, hw1]; omega⟩

/-- C10. For every sequence of poll answers in which no polled pod carries a
deletion marker: `doCheckPod` returns no error and no retry on a running pod and
an error with retry = true on every other pod; `checkPod` succeeds exactly when
one of the next `defaultRetryMore` polls shows a running pod; and when none does,
it fails after exactly `defaultRetryMore` polls, the polling loop being the one
of the specification. -/
theorem checkPod_succeeds_iff_running (env : Env) (pod : Pod) (w : World)
    (hnodel : ∀ k p, env.getPodAnswer k = Except.ok p → p.DeletionGracePeriodSeconds = none) :
    (∀ ns name w1 p, env.getPodAnswer w1.polls = Except.ok p →
        (doCheckPod env ns name w1).1 =
          if p.Phase = PodRunning then (false, none)
          else (true, some (Error.podNotRunning p.Phase))) ∧
      ((checkPod env pod w).1 = none ↔
        ∃ k, k < env.defaultRetryMore ∧
          ∃ p, env.getPodAnswer (w.polls + k) = Except.ok p ∧ p.Phase = PodRunning) ∧
      ((¬ ∃ k, k < env.defaultRetryMore ∧
          ∃ p, env.getPodAnswer (w.polls + k) = Except.ok p ∧ p.Phase = PodRunning) →
        (checkPod env pod w).1 = some Error.retryExhausted ∧
        (checkPod env pod w).2.polls = w.polls + env.defaultRetryMore) := by
  obtain ⟨h1, h2⟩ := RetrySimple_doCheckPod env pod.Namespace pod.Name hnodel
    env.defaultRetryMore w
  exact ⟨fun ns name w1 p hp => doCheckPod_of_not_deleted env ns name w1 p hp (hnodel _ _ hp),
    h1, h2⟩

/-- C10 at the polls Pending, Pending, Running with six attempts allowed:
`checkPod` succeeds. -/
theorem checkPod_succeeds_iff_running_witness :
    (∀ k p, Env.pendingTwice.getPodAnswer k = Except.ok p →
        p.DeletionGracePeriodSeconds = none) ∧
      Env.pendingTwice.getPodAnswer 0 = Except.ok pendingPod ∧
      Env.pendingTwice.getPodAnswer 1 = Except.ok pendingPod ∧
      Env.pendingTwice.getPodAnswer 2 = Except.ok barePod ∧
      (checkPod Env.pendingTwice barePod World.initial).1 = none :=
  have hnodel : ∀ k p, Env.pendingTwice.getPodAnswer k = Except.ok p →
      p.DeletionGracePeriodSeconds = none := by
    intro k p h
    by_cases hk : k < 2
    · have : Env.pendingTwice.getPodAnswer k = Except.ok pendingPod := by
        simp [Env.pendingTwice, hk]
      rw [this] at h
      cases h
      rfl
    · have : Env.pendingTwice.getPodAnswer k = Except.ok barePod := by
        simp [Env.pendingTwice, hk]
      rw [this] at h
      cases h
      rfl
  ⟨hnodel, rfl, rfl, rfl,
    (checkPod_succeeds_iff_running Env.pendingTwice barePod World.initial hnodel).2.1.mpr
      ⟨2, by decide, barePod, rfl, rfl⟩⟩

/-! ## C11: nothing is swapped or mutated without the lock -/

/-- The lock wait fails when every attempt of its budget is refused, after
exactly that many attempts. -/
theorem RetryDuring_acquirelock_refused (env : Env) (n : Nat) (w : World)
    (h : ∀ k, k < n → env.acquirelockAnswer (w.lockAttempts + k) = false) :
    (RetryDuring n (acquirelockAttempt env) w).1 = some Error.retryExhausted ∧
      (RetryDuring n (acquirelockAttempt env) w).2.trace
        = w.trace ++ List.replicate n Call.acquirelock := by
  induction n generalizing w with
  | zero => simp [RetryDuring]
  | succ n ih =>
    have h0 : env.acquirelockAnswer w.lockAttempts = false := by
      simpa using h 0 (Nat.succ_pos n)
    obtain ⟨h1, h2⟩ := ih
      { w with trace := w.trace ++ [Call.acquirelock], lockAttempts := w.lockAttempts + 1 }
      (fun k hk => by
        have := h (k + 1) (by omega)
        simpa [Nat.add_assoc, Nat.add_comm 1 k] using this)
    simp only [RetryDuring, acquirelockAttempt, Acquirelock, h0, Bool.or_false]
    refine ⟨h1, ?_⟩
    rw [h2]
    simp [List.replicate_succ]

/-- Building the helper, setting up the lock and waiting for it issue neither a
scheduler swap nor a mutation. -/
theorem acquireParentLock_trace (env : Env) (pod : Pod) (parentKind parentName : String)
    (w : World) :
    ∃ added, (acquireParentLock env pod parentKind parentName w).2.trace = w.trace ++ added ∧
      ∀ c ∈ added, c.isGuardedCall = false := by
  unfold acquireParentLock
  cases hn : env.newSchedulerHelperErr with
  | some e1 =>
    refine ⟨[Call.newSchedulerHelper pod.Namespace pod.Name parentKind parentName
      env.noneSchedulerName (highver env)], by simp [NewSchedulerHelper, hn, World.log], ?_⟩
    intro c hc
    simp only [List.mem_singleton] at hc
    subst hc; rfl
  | none =>
    cases hs : env.setupLockErr with
    | some e2 =>
      refine ⟨[Call.newSchedulerHelper pod.Namespace pod.Name parentKind parentName
        env.noneSchedulerName (highver env), Call.setupLock],
        by simp [NewSchedulerHelper, hn, SetupLock, hs, World.log], ?_⟩
      intro c hc
      simp only [List.mem_cons, List.mem_singleton, List.not_mem_nil, or_false] at hc
      rcases hc with rfl | rfl <;> rfl
    | none =>
      simp only [NewSchedulerHelper, hn, SetupLock, hs]
      obtain ⟨k, hk, -⟩ := RetryDuring_acquirelock env (min 1000 env.waitLockAttempts)
        (World.log { World.log w (Call.newSchedulerHelper pod.Namespace pod.Name parentKind
          parentName env.noneSchedulerName (highver env)) with stagedScheduler := none }
          Call.setupLock)
      refine ⟨Call.newSchedulerHelper pod.Namespace pod.Name parentKind parentName
        env.noneSchedulerName (highver env) :: Call.setupLock
          :: List.replicate k Call.acquirelock, by rw [hk]; simp [World.log], ?_⟩
      intro c hc
      simp only [List.mem_cons, List.mem_replicate] at hc
      rcases hc with rfl | rfl | ⟨-, rfl⟩ <;> rfl

/-- C11. On the bare-pod path, when `Trylock` fails the function returns that
error after the two calls `NewLockHelper`, `Trylock`. On the controller path, when
the lock of the parent is not acquired (helper, set-up or lock wait fails) the
function returns that error and the calls it made include no `UpdateScheduler` and
no `resizeContainer`; in particular, when every `Acquirelock` attempt of the wait
is refused the wait gives up and the function returns an error. So the swap and
the mutation are attempted only after the lock was acquired. -/
theorem resize_only_under_lock (env : Env) (pod : Pod) (parentKind parentName : String)
    (index : Int) (capacity : ResourceList) (w : World) :
    (∀ err, env.newLockHelperErr = none → env.trylockErr = some err →
      (resizeBarePodContainer env pod index capacity w).1 = some err ∧
      (resizeBarePodContainer env pod index capacity w).2.trace
        = w.trace ++ [Call.newLockHelper (BuildIdentifier pod.Namespace pod.Name),
            Call.trylock]) ∧
    (∀ err w3, acquireParentLock env pod parentKind parentName w = (some err, w3) →
      resizeControllerContainer env pod parentKind parentName index capacity w = (some err, w3) ∧
      ∃ added, w3.trace = w.trace ++ added ∧ ∀ c ∈ added, c.isGuardedCall = false) ∧
    (env.newSchedulerHelperErr = none → env.setupLockErr = none →
      (∀ k, k < min 1000 env.waitLockAttempts →
        env.acquirelockAnswer (w.lockAttempts + k) = false) →
      (resizeControllerContainer env pod parentKind parentName index capacity w).1
        = some Error.retryExhausted ∧
      (resizeControllerContainer env pod parentKind parentName index capacity w).2.trace
        = w.trace ++ (Call.newSchedulerHelper pod.Namespace pod.Name parentKind parentName
            env.noneSchedulerName (highver env) :: Call.setupLock
            :: List.replicate (min 1000 env.waitLockAttempts) Call.acquirelock)) := by
  refine ⟨?_, ?_, ?_⟩
  · intro err hn ht
    simp [resizeBarePodContainer, NewLockHelper, hn, Trylock, ht, World.log]
  · intro err w3 hl
    refine ⟨by simp [resizeControllerContainer, hl], ?_⟩
    have := acquireParentLock_trace env pod parentKind parentName w
    rw [hl] at this
    exact this
  · intro hn hs hrefused
    obtain ⟨h1, h2⟩ := RetryDuring_acquirelock_refused env (min 1000 env.waitLockAttempts)
      (World.log { World.log w (Call.newSchedulerHelper pod.Namespace pod.Name parentKind
        parentName env.noneSchedulerName (highver env)) with stagedScheduler := none }
        Call.setupLock) (by simpa [World.log] using hrefused)
    have hl : acquireParentLock env pod parentKind parentName w
        = RetryDuring (min 1000 env.waitLockAttempts) (acquirelockAttempt env)
          (World.log { World.log w (Call.newSchedulerHelper pod.Namespace pod.Name parentKind
            parentName env.noneSchedulerName (highver env)) with stagedScheduler := none }
            Call.setupLock) := by
      simp [acquireParentLock, NewSchedulerHelper, hn, SetupLock, hs]
    cases hr : RetryDuring (min 1000 env.waitLockAttempts) (acquirelockAttempt env)
        (World.log { World.log w (Call.newSchedulerHelper pod.Namespace pod.Name parentKind
          parentName env.noneSchedulerName (highver env)) with stagedScheduler := none }
          Call.setupLock) with
    | mk r w3 =>
      rw [hr] at h1 h2 hl
      simp only at h1 h2
      subst h1
      refine ⟨by simp [resizeControllerContainer, hl], ?_⟩
      simp [resizeControllerContainer, hl, h2, World.log]

/-- C11 at the two pods when no lock is ever granted. -/
theorem resize_only_under_lock_witness :
    (Env.lockFails barePod).newLockHelperErr = none ∧
      (Env.lockFails barePod).trylockErr = some (Error.external "lock timeout") ∧
      (resizeBarePodContainer (Env.lockFails barePod) barePod 0 [(ResourceMemory, 2048)]
        World.initial).1 = some (Error.external "lock timeout") ∧
      (resizeBarePodContainer (Env.lockFails barePod) barePod 0 [(ResourceMemory, 2048)]
        World.initial).2.trace
        = World.initial.trace ++ [Call.newLockHelper (BuildIdentifier barePod.Namespace
            barePod.Name), Call.trylock] :=
  ⟨rfl, rfl,
    (resize_only_under_lock (Env.lockFails barePod) barePod "" "" 0 [(ResourceMemory, 2048)]
      World.initial).1 (Error.external "lock timeout") rfl rfl⟩

/-- The controller part of C11 at the owned pod when every `Acquirelock` attempt
is refused: the wait gives up after its ten attempts. -/
theorem resizeControllerContainer_lock_refused_example :
    (resizeControllerContainer (Env.lockFails ownedPod) ownedPod "ReplicaSet" "web-rs" 0
        [(ResourceMemory, 2048)] World.initial).1 = some Error.retryExhausted ∧
      (resizeControllerContainer (Env.lockFails ownedPod) ownedPod "ReplicaSet" "web-rs" 0
        [(ResourceMemory, 2048)] World.initial).2.trace
        = Call.newSchedulerHelper "default" "web" "ReplicaSet" "web-rs" "turbo-no-scheduler" true
            :: Call.setupLock :: List.replicate 10 Call.acquirelock := by
  decide

/-! ## C12: the bare-pod path -/

/-- C12. On the bare-pod path the key of the lock helper is the namespace of the
pod, then `/`, then its name; once the helper is built and `Trylock` succeeds, the
calls are `KeepRenewLock`, the mutation, then `ReleaseLock` exactly once and last,
whether the mutation succeeds or fails; the function returns the result of the
mutation unchanged, and the lock is released. -/
theorem resizeBarePodContainer_locked (env : Env) (pod : Pod) (index : Int)
    (capacity : ResourceList) (w : World)
    (hnew : env.newLockHelperErr = none) (htry : env.trylockErr = none) :
    (resizeBarePodContainer env pod index capacity w).1 = env.resizeContainerErr ∧
      (resizeBarePodContainer env pod index capacity w).2.trace
        = w.trace ++ [Call.newLockHelper (pod.Namespace ++ "/" ++ pod.Name), Call.trylock,
            Call.keepRenewLock,
            Call.resizeContainer pod.Namespace pod.Name index capacity env.defaultRetryMore,
            Call.releaseLock] ∧
      (resizeBarePodContainer env pod index capacity w).2.locked = false := by
  simp [resizeBarePodContainer, NewLockHelper, hnew, Trylock, htry, KeepRenewLock,
    resizeContainer, ReleaseLock, World.log, BuildIdentifier]

/-- C12 at the pod `default/web` when the mutation fails: the error of the
mutation is returned and the lock is released. -/
theorem resizeBarePodContainer_locked_witness :
    (Env.mutationFails barePod).newLockHelperErr = none ∧
      (Env.mutationFails barePod).trylockErr = none ∧
      (resizeBarePodContainer (Env.mutationFails barePod) barePod 0 [(ResourceMemory, 2048)]
        World.initial).1 = some (Error.external "conflict") ∧
      (resizeBarePodContainer (Env.mutationFails barePod) barePod 0 [(ResourceMemory, 2048)]
        World.initial).2.trace
        = World.initial.trace ++ [Call.newLockHelper (barePod.Namespace ++ "/" ++ barePod.Name),
            Call.trylock, Call.keepRenewLock,
            Call.resizeContainer barePod.Namespace barePod.Name 0 [(ResourceMemory, 2048)]
              (Env.mutationFails barePod).defaultRetryMore,
            Call.releaseLock] ∧
      (resizeBarePodContainer (Env.mutationFails barePod) barePod 0 [(ResourceMemory, 2048)]
        World.initial).2.locked = false :=
  ⟨rfl, rfl,
    resizeBarePodContainer_locked (Env.mutationFails barePod) barePod 0
      [(ResourceMemory, 2048)] World.initial rfl rfl⟩

/-! ## C13: the null action item -/

/-- C13. `Execute` on a nil action item returns the error `ActionItem is null.` at
once: the world is as it was, so no specification was built and no cluster read,
lock or mutation call was made. -/
theorem Execute_nil (env : Env) (w : World) :
    Execute env none w = some (some Error.actionItemNull, w) := by
  rfl

/-! ## Owner references with every flag present -/

/-- The first entry flagged as controller with non-empty kind and name. -/
theorem parseOwnerReferences_of_flagged (owners : List OwnerReference)
    (hflag : ∀ o ∈ owners, o.Controller ≠ none) :
    parseOwnerReferences owners =
      some (match owners.find? (fun o => o.Controller == some true &&
          decide (o.Kind.length > 0) && decide (o.Name.length > 0)) with
        | some o => (o.Kind, o.Name)
        | none => ("", "")) := by
  induction owners with
  | nil => rfl
  | cons o rest ih =>
    have hrest := ih (fun x hx => hflag x (List.mem_cons_of_mem o hx))
    cases hc : o.Controller with
    | none => exact absurd hc (hflag o (List.mem_cons_self o rest))
    | some c =>
      cases c with
      | false =>
        simp only [parseOwnerReferences, hc, Bool.false_and, List.find?_cons]
        simpa using hrest
      | true =>
        by_cases hk : o.Kind.length > 0 ∧ o.Name.length > 0
        · simp [parseOwnerReferences, hc, List.find?_cons, hk.1, hk.2]
        · have hk2 : (decide (o.Kind.length > 0) && decide (o.Name.length > 0)) = false := by
            simpa [Bool.and_eq_false_iff, not_and_or] using hk
          simp only [parseOwnerReferences, hc, List.find?_cons, Bool.true_and, hk2, beq_self_eq_true]
          simpa using hrest

/-- When every owner reference carries the flag, `GetPodParentInfo` returns the
first owner flagged as controller with non-empty kind and name, whatever the
annotations are, and falls back on the `created-by` annotation when there is none;
without owner references and annotations it returns `("", "", nil)`. -/
theorem GetPodParentInfo_of_flagged (env : Env) (pod : Pod)
    (hflag : ∀ o ∈ pod.OwnerReferences, o.Controller ≠ none) :
    GetPodParentInfo env pod =
        some (match pod.OwnerReferences.find? (fun o => o.Controller == some true &&
            decide (o.Kind.length > 0) && decide (o.Name.length > 0)) with
          | some o => (o.Kind, o.Name, none)
          | none => parentFromAnnotations env pod) ∧
      (pod.Annotations = [] → parentFromAnnotations env pod = ("", "", none)) := by
  constructor
  · cases howners : pod.OwnerReferences with
    | nil => simp [GetPodParentInfo, howners]
    | cons o rest =>
      rw [howners] at hflag
      have hp := parseOwnerReferences_of_flagged (o :: rest) hflag
      cases hfind : (o :: rest).find? (fun o => o.Controller == some true &&
          decide (o.Kind.length > 0) && decide (o.Name.length > 0)) with
      | none =>
        rw [hfind] at hp
        simp [GetPodParentInfo, howners, hp]
      | some g =>
        rw [hfind] at hp
        have hg := List.find?_some hfind
        simp only [Bool.and_eq_true, decide_eq_true_eq] at hg
        simp [GetPodParentInfo, howners, hp, hg.1.2, hg.2]
  · intro ha
    simp [parentFromAnnotations, ha]

/-! ## C14: the parent of the parent -/

/-- What `GetPodGrandInfo` returns when the parent of the pod is known, the
replica set is found and every owner reference of it carries the `Controller`
flag: the parent when its kind is not `ReplicaSet`; otherwise the first owner of
the replica set flagged as controller with non-empty kind and name, and the
parent when there is none. -/
theorem GetPodGrandInfo_of_flagged (env : Env) (renv : ReplicaSetEnv) (pod : Pod)
    (kind name : String)
    (hparent : GetPodParentInfo env pod = some (kind, name, none)) :
    (renv.EqualFold kind "ReplicaSet" = false →
      GetPodGrandInfo env renv pod = some (kind, name, none)) ∧
    (∀ owners, renv.EqualFold kind "ReplicaSet" = true →
      renv.getReplicaSet pod.Namespace name = Except.ok owners →
      (∀ o ∈ owners, o.Controller ≠ none) →
      GetPodGrandInfo env renv pod =
        some (match owners.find? (fun o => o.Controller == some true &&
            decide (o.Kind.length > 0) && decide (o.Name.length > 0)) with
          | some o => (o.Kind, o.Name, none)
          | none => (kind, name, none))) := by
  constructor
  · intro hf
    simp [GetPodGrandInfo, hparent, hf]
  · intro owners hf hget hflag
    cases owners with
    | nil => simp [GetPodGrandInfo, hparent, hf, hget]
    | cons o rest =>
      have hp := parseOwnerReferences_of_flagged (o :: rest) hflag
      cases hfind : (o :: rest).find? (fun o => o.Controller == some true &&
          decide (o.Kind.length > 0) && decide (o.Name.length > 0)) with
      | none =>
        rw [hfind] at hp
        simp [GetPodGrandInfo, hparent, hf, hget, hp]
      | some g =>
        rw [hfind] at hp
        have hg := List.find?_some hfind
        simp only [Bool.and_eq_true, decide_eq_true_eq] at hg
        simp [GetPodGrandInfo, hparent, hf, hget, hp, hg.1.2, hg.2]

/-- C14 fails on the code. The pod is owned by the replica set `web-rs`, which is
found and whose only owner reference carries no `Controller` flag, so that it has
no controller owner: `GetPodParentInfo` returns `ReplicaSet`, `web-rs`, but
`GetPodGrandInfo` panics on the nil flag instead of returning them. With the
deployment `web` as controller of the replica set it returns the deployment. -/
theorem GetPodGrandInfo_unflagged_panics :
    GetPodParentInfo (Env.allGood ownedPod) ownedPod = some ("ReplicaSet", "web-rs", none) ∧
      ReplicaSetEnv.unflagged.EqualFold "ReplicaSet" "ReplicaSet" = true ∧
      ReplicaSetEnv.unflagged.getReplicaSet "default" "web-rs" = Except.ok [unflaggedOwner] ∧
      unflaggedOwner.Controller = none ∧
      GetPodGrandInfo (Env.allGood ownedPod) ReplicaSetEnv.unflagged ownedPod = none ∧
      GetPodGrandInfo (Env.allGood ownedPod) ReplicaSetEnv.deployed ownedPod
        = some ("Deployment", "web", none) :=
  ⟨by decide, by decide, rfl, rfl, by decide, by decide⟩

/-! ## C15: the replication controller of a pod -/

/-- The selector loop leaves the flag set exactly when the labels carry every
entry of the selector, with a value that is not empty. -/
theorem selectorMatches_iff (labels selector : List (String × String)) :
    selectorMatches labels selector = true ↔
      ∀ kv ∈ selector, labels.lookup kv.1 = some kv.2 ∧ kv.2 ≠ "" := by
  induction selector with
  | nil => simp [selectorMatches]
  | cons kv rest ih =>
    obtain ⟨key, val⟩ := kv
    have hhead : (¬ (mapIndex labels key = "" ∨ mapIndex labels key ≠ val)) ↔
        (labels.lookup key = some val ∧ val ≠ "") := by
      unfold mapIndex
      cases hl : labels.lookup key with
      | none =>
        simp only [Option.getD_none, true_or, not_true_eq_false, false_iff]
        rintro ⟨h, -⟩
        exact Option.noConfusion h
      | some x =>
        simp only [Option.getD_some, Option.some.injEq, not_or, not_not]
        constructor
        · rintro ⟨h1, h2⟩
          exact ⟨h2, h2 ▸ h1⟩
        · rintro ⟨h1, h2⟩
          exact ⟨h1 ▸ h2, h1⟩
    by_cases hc : mapIndex labels key = "" ∨ mapIndex labels key ≠ val
    · simp only [selectorMatches, hc, if_true, List.mem_cons, forall_eq_or_imp]
      constructor
      · intro h
        exact absurd h (by simp)
      · rintro ⟨h, -⟩
        exact absurd (hhead.mpr h) (not_not.mpr hc)
    · simp only [selectorMatches, hc, if_false, List.mem_cons, forall_eq_or_imp, ih]
      exact ⟨fun h => ⟨hhead.mp hc, h⟩, fun h => h.2⟩

/-- The controller found is the first of the list that the loop accepts. -/
theorem findRCBasedOnPodLabel_ok (rcList : List ReplicationController)
    (labels : List (String × String)) (rc : ReplicationController)
    (h : findRCBasedOnPodLabel rcList labels = Except.ok rc) :
    rc ∈ rcList ∧ selectorMatches labels rc.Selector = true := by
  induction rcList with
  | nil => simp [findRCBasedOnPodLabel] at h
  | cons r rest ih =>
    by_cases hm : selectorMatches labels r.Selector = true
    · simp only [findRCBasedOnPodLabel, hm, if_true, Except.ok.injEq] at h
      subst h
      exact ⟨List.mem_cons_self _ _, hm⟩
    · simp only [findRCBasedOnPodLabel, hm] at h
      obtain ⟨h1, h2⟩ := ih h
      exact ⟨List.mem_cons_of_mem _ h1, h2⟩

/-- When the loop accepts no controller of the list, the search fails. -/
theorem findRCBasedOnPodLabel_none (rcList : List ReplicationController)
    (labels : List (String × String))
    (h : ∀ rc ∈ rcList, selectorMatches labels rc.Selector = false) :
    findRCBasedOnPodLabel rcList labels = Except.error Error.noRCMatches := by
  induction rcList with
  | nil => rfl
  | cons r rest ih =>
    have hr := h r (List.mem_cons_self _ _)
    simp only [findRCBasedOnPodLabel, hr]
    exact ih (fun rc hrc => h rc (List.mem_cons_of_mem _ hrc))

/-- C15 fails as stated: for the pod labelled `app=web` and a list that starts
with a controller whose selector is empty, `FindReplicationControllerForPod`
returns that controller, whose selector matches none of the labels of the pod. -/
theorem FindReplicationControllerForPod_empty_selector :
    labelledPod.Labels = some [("app", "web")] ∧
      FindReplicationControllerForPod (fun _ => Except.ok [rcNoSelector, rcWeb]) labelledPod
        = Except.ok (some rcNoSelector) ∧
      ¬ ∃ kv ∈ rcNoSelector.Selector,
        ([("app", "web")] : List (String × String)).lookup kv.1 = some kv.2 :=
  ⟨rfl, rfl, by simp [rcNoSelector]⟩

/-- C15, amended. Whenever `FindReplicationControllerForPod` returns a replication
controller, the pod is labelled, the controller is in the list of its namespace
and the labels of the pod carry every entry of its selector, so that a selector
that is not empty matches at least one label of the pod; and for a labelled pod,
when the list is obtained and every controller in it has a selector entry that the
labels do not carry, an error is returned. -/
theorem FindReplicationControllerForPod_matches
    (listRCs : String → Except Error (List ReplicationController)) (currentPod : Pod) :
    (∀ rc, FindReplicationControllerForPod listRCs currentPod = Except.ok (some rc) →
      ∃ labels allRCs, currentPod.Labels = some labels ∧
        listRCs currentPod.Namespace = Except.ok allRCs ∧ rc ∈ allRCs ∧
        (∀ kv ∈ rc.Selector, labels.lookup kv.1 = some kv.2 ∧ kv.2 ≠ "") ∧
        (rc.Selector ≠ [] → ∃ kv ∈ rc.Selector, labels.lookup kv.1 = some kv.2)) ∧
    (∀ labels allRCs, currentPod.Labels = some labels →
      listRCs currentPod.Namespace = Except.ok allRCs →
      (∀ rc ∈ allRCs, ∃ kv ∈ rc.Selector, ¬ (labels.lookup kv.1 = some kv.2 ∧ kv.2 ≠ "")) →
      FindReplicationControllerForPod listRCs currentPod
        = Except.error (Error.findRCFailed currentPod.Namespace currentPod.Name
            Error.noRCMatches)) := by
  constructor
  · intro rc h
    cases hl : currentPod.Labels with
    | none => simp [FindReplicationControllerForPod, hl] at h
    | some labels =>
      cases hlist : listRCs currentPod.Namespace with
      | error err =>
        simp [FindReplicationControllerForPod, hl, GetAllReplicationControllers, hlist] at h
      | ok allRCs =>
        cases hfind : findRCBasedOnPodLabel allRCs labels with
        | error err =>
          simp [FindReplicationControllerForPod, hl, GetAllReplicationControllers, hlist,
            hfind] at h
        | ok found =>
          simp only [FindReplicationControllerForPod, hl, GetAllReplicationControllers, hlist,
            hfind, Except.ok.injEq, Option.some.injEq] at h
          subst h
          obtain ⟨hmem, hmatch⟩ := findRCBasedOnPodLabel_ok allRCs labels found hfind
          have hall := (selectorMatches_iff labels found.Selector).mp hmatch
          refine ⟨labels, allRCs, rfl, rfl, hmem, hall, ?_⟩
          intro hne
          cases hsel : found.Selector with
          | nil => exact absurd hsel hne
          | cons kv rest =>
            exact ⟨kv, List.mem_cons_self _ _, (hall kv (hsel ▸ List.mem_cons_self _ _)).1⟩
  · intro labels allRCs hl hlist hnone
    have hno : ∀ rc ∈ allRCs, selectorMatches labels rc.Selector = false := by
      intro rc hrc
      obtain ⟨kv, hkv, hnot⟩ := hnone rc hrc
      cases hm : selectorMatches labels rc.Selector with
      | false => rfl
      | true => exact absurd ((selectorMatches_iff labels rc.Selector).mp hm kv hkv) hnot
    simp [FindReplicationControllerForPod, hl, GetAllReplicationControllers, hlist,
      findRCBasedOnPodLabel_none allRCs labels hno]

/-- C15, amended, at the pod labelled `app=web` and the controllers `db-rc`,
`web-rc`: the second one is returned and its selector matches the label. -/
theorem FindReplicationControllerForPod_matches_witness :
    FindReplicationControllerForPod (fun _ => Except.ok [rcDb, rcWeb]) labelledPod
        = Except.ok (some rcWeb) ∧
      ∃ labels allRCs, labelledPod.Labels = some labels ∧
        (fun _ => Except.ok [rcDb, rcWeb] : String → Except Error (List ReplicationController))
          labelledPod.Namespace = Except.ok allRCs ∧ rcWeb ∈ allRCs ∧
        (∀ kv ∈ rcWeb.Selector, labels.lookup kv.1 = some kv.2 ∧ kv.2 ≠ "") ∧
        (rcWeb.Selector ≠ [] → ∃ kv ∈ rcWeb.Selector, labels.lookup kv.1 = some kv.2) :=
  ⟨rfl, (FindReplicationControllerForPod_matches (fun _ => Except.ok [rcDb, rcWeb])
    labelledPod).1 rcWeb rfl⟩

/-! ## C16: the monitoring worker of a source -/

/-- C16. `BuildMonitorWorker` returns the unsupported-source error for every
source other than Kubelet, Cluster and K8sConntrack; for each of these three it
returns the error of that source when the config is nil or of another type than
the config type of the source; and whenever it returns a worker, that worker is
the one the constructor of the given source returned on the given config, the
config being of the type of the source. -/
theorem BuildMonitorWorker_dispatch {Worker : Type} (pkgs : MonitorPackages Worker)
    (source : MonitoringSource) (config : Option MonitorWorkerConfig) :
    (∀ name, source = MonitoringSource.other name →
      BuildMonitorWorker pkgs source config
        = Except.error (Error.unsupportedMonitoringSource name)) ∧
    (source = MonitoringSource.KubeletSource → (∀ c, config ≠ some (MonitorWorkerConfig.kubelet c)) →
      BuildMonitorWorker pkgs source config = Except.error Error.notKubeletMonitorConfig) ∧
    (source = MonitoringSource.ClusterSource → (∀ c, config ≠ some (MonitorWorkerConfig.cluster c)) →
      BuildMonitorWorker pkgs source config = Except.error Error.notClusterMonitorConfig) ∧
    (source = MonitoringSource.K8sConntrackSource →
      (∀ c, config ≠ some (MonitorWorkerConfig.k8sconntrack c)) →
      BuildMonitorWorker pkgs source config = Except.error Error.notK8sConntrackConfig) ∧
    (∀ worker, BuildMonitorWorker pkgs source config = Except.ok worker →
      (source = MonitoringSource.KubeletSource ∧
        ∃ c, config = some (MonitorWorkerConfig.kubelet c) ∧
          pkgs.NewKubeletMonitor c = Except.ok worker) ∨
      (source = MonitoringSource.ClusterSource ∧
        ∃ c, config = some (MonitorWorkerConfig.cluster c) ∧
          pkgs.NewClusterMonitor c = Except.ok worker) ∨
      (source = MonitoringSource.K8sConntrackSource ∧
        ∃ c, config = some (MonitorWorkerConfig.k8sconntrack c) ∧
          pkgs.NewK8sConntrackMonitor c = Except.ok worker)) := by
  refine ⟨?_, ?_, ?_, ?_, ?_⟩
  · rintro name rfl
    rfl
  · rintro rfl hc
    rcases config with _ | (c | c | c | t)
    · rfl
    · exact absurd rfl (hc c)
    · rfl
    · rfl
    · rfl
  · rintro rfl hc
    rcases config with _ | (c | c | c | t)
    · rfl
    · rfl
    · exact absurd rfl (hc c)
    · rfl
    · rfl
  · rintro rfl hc
    rcases config with _ | (c | c | c | t)
    · rfl
    · rfl
    · rfl
    · exact absurd rfl (hc c)
    · rfl
  · intro worker h
    cases source with
    | KubeletSource =>
      rcases config with _ | (c | c | c | t) <;>
        first
        | exact Or.inl ⟨rfl, c, rfl, h⟩
        | exact Except.noConfusion h
    | ClusterSource =>
      rcases config with _ | (c | c | c | t) <;>
        first
        | exact Or.inr (Or.inl ⟨rfl, c, rfl, h⟩)
        | exact Except.noConfusion h
    | K8sConntrackSource =>
      rcases config with _ | (c | c | c | t) <;>
        first
        | exact Or.inr (Or.inr ⟨rfl, c, rfl, h⟩)
        | exact Except.noConfusion h
    | other name => exact Except.noConfusion h

/-- C16 at the Kubelet source: with a cluster config or no config the build
fails, with a kubelet config the kubelet monitor is returned; the source
`Prometheus` is not supported. -/
theorem BuildMonitorWorker_dispatch_witness :
    BuildMonitorWorker MonitorPackages.named MonitoringSource.KubeletSource
        (some (MonitorWorkerConfig.cluster { addr := 7 }))
        = Except.error Error.notKubeletMonitorConfig ∧
      BuildMonitorWorker MonitorPackages.named MonitoringSource.KubeletSource none
        = Except.error Error.notKubeletMonitorConfig ∧
      BuildMonitorWorker MonitorPackages.named MonitoringSource.KubeletSource
        (some (MonitorWorkerConfig.kubelet { addr := 7 })) = Except.ok ("kubelet", 7) ∧
      BuildMonitorWorker MonitorPackages.named (MonitoringSource.other "Prometheus")
        (some (MonitorWorkerConfig.kubelet { addr := 7 }))
        = Except.error (Error.unsupportedMonitoringSource "Prometheus") :=
  ⟨(BuildMonitorWorker_dispatch MonitorPackages.named MonitoringSource.KubeletSource
      (some (MonitorWorkerConfig.cluster { addr := 7 }))).2.1 rfl (by intro c h; cases h),
    (BuildMonitorWorker_dispatch MonitorPackages.named MonitoringSource.KubeletSource
      none).2.1 rfl (by intro c h; cases h),
    rfl,
    (BuildMonitorWorker_dispatch MonitorPackages.named (MonitoringSource.other "Prometheus")
      (some (MonitorWorkerConfig.kubelet { addr := 7 }))).1 "Prometheus" rfl⟩

/-! ## C17: owner references -/

/-- C17 fails on the code. On the owner reference list whose single entry has no
`Controller` flag, `parseOwnerReferences` dereferences the nil pointer and panics
instead of returning `("", "")`, and so does `GetPodParentInfo` on a pod with these
owner references; an entry without flag behind a matching entry is not reached. -/
theorem parseOwnerReferences_unflagged_panics :
    unflaggedOwner.Controller = none ∧
      parseOwnerReferences [unflaggedOwner] = none ∧
      GetPodParentInfo (Env.allGood unflaggedPod) unflaggedPod = none ∧
      parseOwnerReferences
        [{ Kind := "ReplicaSet", Name := "web-rs", Controller := some true }, unflaggedOwner]
        = some ("ReplicaSet", "web-rs") := by
  decide

/-! ## C18: one entry in the new capacity -/

/-- C18. Whenever `buildNewCapacity` returns without error, the resource list
holds exactly one entry, under the CPU key when the commodity is VCPU and under
the memory key when it is VMEM (and the commodity is one of the two); hence for
every specification that `buildResizeAction` returns, the test
`len(resizeSpec.NewCapacity) < 1` of `executeAction` is false. -/
theorem buildNewCapacity_single_entry (env : Env) (pod : Pod) (actionItem : ActionItemDTO)
    (w w1 : World) (rlist : ResourceList)
    (h : buildNewCapacity env pod actionItem w = ((rlist, none), w1)) :
    rlist.length = 1 ∧
      ((CommodityDTO.GetCommodityType actionItem.NewComm = CommodityType.VCPU ∧
          ∃ q, rlist = [(ResourceCPU, q)]) ∨
        (CommodityDTO.GetCommodityType actionItem.NewComm = CommodityType.VMEM ∧
          ∃ q, rlist = [(ResourceMemory, q)])) ∧
      (∀ w0 w2 resizeSpec pod1,
        buildResizeAction env actionItem w0 = (Except.ok (resizeSpec, pod1), w2) →
        ¬ resizeSpec.NewCapacity.length < 1) := by
  have hent := buildNewCapacity_ok_entries env pod actionItem w w1 rlist h
  refine ⟨?_, hent, ?_⟩
  · rcases hent with ⟨-, q, hq⟩ | ⟨-, q, hq⟩ <;> simp [hq]
  · intro w0 w2 resizeSpec pod1 hb
    have := buildResizeAction_capacity_nonempty env actionItem w0 w2 resizeSpec pod1 hb
    omega

/-- C18 at a VMEM change of capacity 2048. -/
theorem buildNewCapacity_single_entry_witness :
    buildNewCapacity (Env.allGood barePod) barePod
        (resizeItem CommodityType.VMEM (Float64.fin 2048)) World.initial
        = (([(ResourceMemory, 2048)], none), World.initial) ∧
      ([(ResourceMemory, 2048)] : ResourceList).length = 1 :=
  have h : buildNewCapacity (Env.allGood barePod) barePod
      (resizeItem CommodityType.VMEM (Float64.fin 2048)) World.initial
      = (([(ResourceMemory, 2048)], none), World.initial) := by decide
  ⟨h, (buildNewCapacity_single_entry (Env.allGood barePod) barePod
    (resizeItem CommodityType.VMEM (Float64.fin 2048)) World.initial World.initial
    [(ResourceMemory, 2048)] h).1⟩

/-! ## C19: the identifier of a pod -/

/-- A list splits in one way only at the first occurrence of an element. -/
theorem append_cons_unique {α : Type} (a : α) (l1 l2 r1 r2 : List α)
    (h1 : a ∉ l1) (h2 : a ∉ l2) (h : l1 ++ a :: r1 = l2 ++ a :: r2) :
    l1 = l2 ∧ r1 = r2 := by
  induction l1 generalizing l2 with
  | nil =>
    cases l2 with
    | nil => exact ⟨rfl, by simpa using h⟩
    | cons b l2 =>
      simp only [List.nil_append, List.cons_append, List.cons.injEq] at h
      exact absurd (h.1 ▸ List.mem_cons_self b l2) h2
  | cons b l1 ih =>
    cases l2 with
    | nil =>
      simp only [List.nil_append, List.cons_append, List.cons.injEq] at h
      exact absurd (h.1 ▸ List.mem_cons_self b l1) h1
    | cons c l2 =>
      simp only [List.cons_append, List.cons.injEq] at h
      obtain ⟨hl, hr⟩ := ih l2 (fun hm => h1 (List.mem_cons_of_mem b hm))
        (fun hm => h2 (List.mem_cons_of_mem c hm)) h.2
      exact ⟨by rw [h.1, hl], hr⟩

/-- The first call of the bare-pod path builds the lock helper under the
identifier of the pod. -/
theorem resizeBarePodContainer_first_call (env : Env) (pod : Pod) (index : Int)
    (capacity : ResourceList) (w : World) :
    ∃ rest, (resizeBarePodContainer env pod index capacity w).2.trace
      = w.trace ++ Call.newLockHelper (BuildIdentifier pod.Namespace pod.Name) :: rest := by
  cases hn : env.newLockHelperErr with
  | some err => exact ⟨[], by simp [resizeBarePodContainer, NewLockHelper, hn, World.log]⟩
  | none =>
    cases ht : env.trylockErr with
    | some err =>
      exact ⟨[Call.trylock],
        by simp [resizeBarePodContainer, NewLockHelper, hn, World.log, Trylock, ht]⟩
    | none =>
      exact ⟨[Call.trylock, Call.keepRenewLock,
        Call.resizeContainer pod.Namespace pod.Name index capacity env.defaultRetryMore,
        Call.releaseLock],
        by simp [resizeBarePodContainer, NewLockHelper, hn, World.log, Trylock, ht,
          KeepRenewLock, resizeContainer, ReleaseLock]⟩

/-- Without the condition on the namespace two pairs can share an identifier. -/
theorem BuildIdentifier_collision :
    BuildIdentifier "a/b" "c" = BuildIdentifier "a" "b/c" ∧ ("a/b", "c") ≠ ("a", "b/c") := by
  decide

/-- C19. `BuildIdentifier` returns the namespace, then `/`, then the name; on
pairs whose namespaces contain no `/` equal identifiers come from equal pairs, so
two pods that differ in namespace or name are given different keys for the lock
helper of the bare-pod path. -/
theorem BuildIdentifier_injective (ns1 name1 ns2 name2 : String)
    (h1 : '/' ∉ ns1.toList) (h2 : '/' ∉ ns2.toList) :
    BuildIdentifier ns1 name1 = ns1 ++ "/" ++ name1 ∧
      (BuildIdentifier ns1 name1 = BuildIdentifier ns2 name2 → ns1 = ns2 ∧ name1 = name2) ∧
      (∀ env pod1 pod2 index capacity w,
        pod1.Namespace = ns1 → pod1.Name = name1 → pod2.Namespace = ns2 → pod2.Name = name2 →
        (ns1, name1) ≠ (ns2, name2) →
        (∃ rest, (resizeBarePodContainer env pod1 index capacity w).2.trace
          = w.trace ++ Call.newLockHelper (BuildIdentifier ns1 name1) :: rest) ∧
        (∃ rest, (resizeBarePodContainer env pod2 index capacity w).2.trace
          = w.trace ++ Call.newLockHelper (BuildIdentifier ns2 name2) :: rest) ∧
        BuildIdentifier ns1 name1 ≠ BuildIdentifier ns2 name2) := by
  have hinj : BuildIdentifier ns1 name1 = BuildIdentifier ns2 name2 →
      ns1 = ns2 ∧ name1 = name2 := by
    intro h
    have hd := congrArg String.toList h
    simp only [BuildIdentifier, String.toList, String.data_append] at hd
    simp only [List.append_assoc, List.singleton_append] at hd
    obtain ⟨ha, hb⟩ := append_cons_unique '/' ns1.data ns2.data name1.data name2.data h1 h2 hd
    exact ⟨String.ext ha, String.ext hb⟩
  have hfirst := resizeBarePodContainer_first_call
  refine ⟨rfl, hinj, ?_⟩
  intro env pod1 pod2 index capacity w hn1 hm1 hn2 hm2 hne
  refine ⟨?_, ?_, ?_⟩
  · rw [← hn1, ← hm1]; exact hfirst env pod1 index capacity w
  · rw [← hn2, ← hm2]; exact hfirst env pod2 index capacity w
  · intro heq
    obtain ⟨ha, hb⟩ := hinj heq
    exact hne (by rw [ha, hb])

/-- C19 at the pods `default/web` and `default/db`. -/
theorem BuildIdentifier_injective_witness :
    '/' ∉ "default".toList ∧
      BuildIdentifier "default" "web" = "default" ++ "/" ++ "web" ∧
      (BuildIdentifier "default" "web" = BuildIdentifier "default" "db" →
        "default" = "default" ∧ "web" = "db") :=
  ⟨by decide,
    (BuildIdentifier_injective "default" "web" "default" "db" (by decide) (by decide)).1,
    (BuildIdentifier_injective "default" "web" "default" "db" (by decide) (by decide)).2.1⟩

end Kubeturbo
